import Mathlib

/-! # InnoDB memcached engine: connection registry and connection lifecycle

A shallow embedding of `plugin/innodb_memcached/innodb_memcache/src/innodb_engine.c`.

* Pointers and handles are natural numbers, `0` being `NULL`.
* The registry `engine->conn_data` (a `UT_LIST`) is a Lean list of connection
  records in list order; its `count` is the length of that list.  Every record
  carries the address of the object it lives in, so that the pointer
  comparisons of the source can be made.
* `engine->server.cookie->get_engine_specific` / `store_engine_specific` is a
  map from cookies to addresses.
* Calls that leave the file (row store, handler, allocator) are appended to a
  chronological log; the values they return are taken from a record of
  callbacks that may depend on the whole log so far.
* A failed `assert`, the overflow of the counter `num_freed` or the use of a
  pointer to no live object makes a function return `none`.
* The `int` length `total_len` of `innodb_get` is a 32-bit two's-complement
  value: every sum is taken through `wrap_int`.
* The connection mutex (`LOCK_CONN_IF_NOT_LOCKED`, `pthread_mutex_lock`) is not
  part of the model: the functions are embedded with their sequential meaning,
  and `has_lock` is kept as an argument only.
-/

namespace InnodbMemcached

/-! ## Data model -/

/-- Status code of a row-store call (`ib_err_t`); the source only ever tests it
against `DB_SUCCESS`. -/
inductive ib_err_t where
  | DB_SUCCESS
  | DB_ERROR (code : Nat)
  deriving DecidableEq, Repr

/-- Lock mode of a cursor (`ib_lck_mode_t`).  The source names three
enumerators; every other enumerator of the header is `IB_LOCK_OTHER`. -/
inductive ib_lck_mode_t where
  | IB_LOCK_IS
  | IB_LOCK_IX
  | IB_LOCK_X
  | IB_LOCK_OTHER (code : Nat)
  deriving DecidableEq, Repr

/-- Which index the mapped table is searched by (`meta_index_t.m_use_idx`). -/
inductive meta_use_idx_t where
  | META_NO_INDEX
  | META_CLUSTER
  | META_SECONDARY
  deriving DecidableEq, Repr

/-- Routing of the operations (`meta_info_t.m_set_option`). -/
inductive meta_set_option_t where
  | META_INNODB
  | META_CACHE
  | META_MIX
  deriving DecidableEq, Repr

/-- Status handed back to the memcached core (`ENGINE_ERROR_CODE`); the source
names five enumerators, every other one is `ENGINE_OTHER`. -/
inductive ENGINE_ERROR_CODE where
  | ENGINE_SUCCESS
  | ENGINE_KEY_ENOENT
  | ENGINE_ENOMEM
  | ENGINE_ENOTSUP
  | ENGINE_FAILED
  | ENGINE_OTHER (code : Nat)
  deriving DecidableEq, Repr

/-- One call that leaves `innodb_engine.c`, with the values passed and the
values that came back. -/
inductive ib_event where
  | cursor_close (crsr : Nat)
  | trx_commit (trx : Nat)
  | unlock_table (thd tbl : Nat)
  | close_thd (thd : Nat)
  | free (addr : Nat)
  | malloc (addr : Nat)
  | trx_begin (trx : Nat)
  | api_begin (trx crsr idx_crsr : Nat) (lock_mode : ib_lck_mode_t)
      (err : ib_err_t) (crsr_out idx_crsr_out : Nat)
  | cursor_new_trx (crsr trx : Nat)
  | cursor_lock (crsr : Nat) (lock_mode : ib_lck_mode_t) (err : ib_err_t)
  | api_cursor_reset (conn_data : Nat)
  | api_flush (err : ib_err_t)
  | default_flush (err : ENGINE_ERROR_CODE)
  deriving DecidableEq, Repr

/-- The fields of `innodb_conn_data_t` that `innodb_engine.c` reads or writes,
together with the address of the object. -/
structure innodb_conn_data_t where
  addr : Nat
  c_cookie : Nat
  c_in_use : Bool
  c_r_trx : Nat
  c_trx : Nat
  c_r_crsr : Nat
  c_crsr : Nat
  c_r_idx_crsr : Nat
  c_idx_crsr : Nat
  mysql_tbl : Nat
  thd : Nat
  deriving DecidableEq, Repr

/-- The engine instance with the part of the server it reaches through
`engine->server.cookie`, and the log of outgoing calls. -/
structure innodb_engine_t where
  conn_data : List innodb_conn_data_t
  cookie : Nat → Nat
  m_use_idx : meta_use_idx_t
  m_set_option : meta_set_option_t
  r_batch_size : Nat
  w_batch_size : Nat
  enable_binlog : Bool
  log : List ib_event

/-- Results of the calls whose code is outside `innodb_engine.c`.  Each may
depend on every call made so far.  `innodb_api_begin` is given the transaction,
the current contents of its two cursor out-parameters and the lock mode, and
answers with the status and the new contents of the two out-parameters; it is
taken to write to the connection through these two out-parameters only. -/
structure ib_cb_t where
  malloc : List ib_event → Nat
  innodb_cb_trx_begin : List ib_event → Nat
  innodb_api_begin : List ib_event → Nat → Nat → Nat → ib_lck_mode_t → ib_err_t × Nat × Nat
  innodb_cb_cursor_lock : List ib_event → Nat → ib_lck_mode_t → ib_err_t
  innodb_cb_binlog_enabled : Bool

/-- Largest value of the C type `int`. -/
def INT_MAX : Int := 2147483647

/-! ## innodb_conn_clean -/

/-- Lines 229-242: the staleness test made on one node. -/
def conn_data_stale (eng : innodb_engine_t) (clear_all : Bool) (cd : innodb_conn_data_t) : Bool :=
  if !clear_all && !cd.c_in_use then
    let check_data := eng.cookie cd.c_cookie
    check_data == 0 || check_data != cd.addr
  else
    false

/-- Lines 249-285: the calls made for a node that is being removed, in source
order; `none` when `assert(conn_data->thd)` fails. -/
def conn_data_teardown (cd : innodb_conn_data_t) : Option (List ib_event) :=
  if cd.mysql_tbl ≠ 0 ∧ cd.thd = 0 then
    none
  else
    some
      ((if cd.c_idx_crsr ≠ 0 then [ib_event.cursor_close cd.c_idx_crsr] else [])
        ++ (if cd.c_r_idx_crsr ≠ 0 then [ib_event.cursor_close cd.c_r_idx_crsr] else [])
        ++ (if cd.c_crsr ≠ 0 then [ib_event.cursor_close cd.c_crsr] else [])
        ++ (if cd.c_r_crsr ≠ 0 then [ib_event.cursor_close cd.c_r_crsr] else [])
        ++ (if cd.c_r_trx ≠ 0 then [ib_event.trx_commit cd.c_r_trx] else [])
        ++ (if cd.c_trx ≠ 0 then [ib_event.trx_commit cd.c_trx] else [])
        ++ (if cd.mysql_tbl ≠ 0 then [ib_event.unlock_table cd.thd cd.mysql_tbl] else [])
        ++ (if cd.thd ≠ 0 then [ib_event.close_thd cd.thd] else [])
        ++ [ib_event.free cd.addr])

/-- Lines 224-295: the `while (conn_data)` loop.  `kept` are the nodes already
visited and still linked, the list argument is the rest of the chain, so the
registry is `kept ++ rest` at every iteration; `num_freed` is the C `int`. -/
def innodb_conn_clean_loop (clear_all : Bool) :
    List innodb_conn_data_t → List innodb_conn_data_t → innodb_engine_t → Int →
      Option (innodb_engine_t × Int)
  | [], kept, eng, num_freed => some ({ eng with conn_data := kept }, num_freed)
  | conn_data :: next_conn_data, kept, eng, num_freed =>
    let cookie := conn_data.c_cookie
    let stale_data := conn_data_stale eng clear_all conn_data
    if clear_all || stale_data then
      match conn_data_teardown conn_data with
      | none => none
      | some calls =>
        let eng1 := { eng with log := eng.log ++ calls }
        let eng2 :=
          if clear_all then
            { eng1 with cookie := fun c => if c = cookie then 0 else eng1.cookie c }
          else eng1
        if num_freed ≥ INT_MAX then none
        else innodb_conn_clean_loop clear_all next_conn_data kept eng2 (num_freed + 1)
    else
      innodb_conn_clean_loop clear_all next_conn_data (kept ++ [conn_data]) eng num_freed

/-- Lines 210-302, `innodb_conn_clean`: returns the engine after the scan and
the number of connections freed. -/
def innodb_conn_clean (eng : innodb_engine_t) (clear_all : Bool) (_has_lock : Bool) :
    Option (innodb_engine_t × Int) :=
  match innodb_conn_clean_loop clear_all eng.conn_data [] eng 0 with
  | none => none
  | some (eng1, num_freed) =>
    if clear_all && eng1.conn_data.length != 0 then none
    else some (eng1, num_freed)

/-! ## innodb_conn_init -/

/-- Lines 391-393: the object at `addr` after `memset(conn_data, 0, ...)` and
`conn_data->c_cookie = cookie`. -/
def conn_data_zero (addr cookie : Nat) : innodb_conn_data_t where
  addr := addr
  c_cookie := cookie
  c_in_use := false
  c_r_trx := 0
  c_trx := 0
  c_r_crsr := 0
  c_crsr := 0
  c_r_idx_crsr := 0
  c_idx_crsr := 0
  mysql_tbl := 0
  thd := 0

/-- Reading through a pointer: the live connection object at address `p`. -/
def conn_data_at (l : List innodb_conn_data_t) (p : Nat) : Option innodb_conn_data_t :=
  l.find? (fun cd => cd.addr == p)

/-- Writing through a pointer: the object at the address of `cd` now holds `cd`. -/
def conn_data_write (l : List innodb_conn_data_t) (cd : innodb_conn_data_t) :
    List innodb_conn_data_t :=
  l.map (fun x => if x.addr = cd.addr then cd else x)

/-- Lines 386-389: with more than 2048 connections linked, stale ones are
recycled by `innodb_conn_clean(engine, FALSE, TRUE)` (its count is dropped). -/
def innodb_conn_init_recycle (eng : innodb_engine_t) : Option innodb_engine_t :=
  if eng.conn_data.length > 2048 then
    (innodb_conn_clean eng false true).map Prod.fst
  else some eng

/-- Lines 391-396: allocate, zero, set the cookie, link at the tail, bind the
cookie.  Returns the engine and the pointer to the new object; `memset` through
a `NULL` pointer gives `none`. -/
def innodb_conn_init_alloc (cb : ib_cb_t) (eng : innodb_engine_t) (cookie : Nat) :
    Option (innodb_engine_t × Nat) :=
  let conn_data := cb.malloc eng.log
  if conn_data = 0 then none
  else
    some ({ eng with
              conn_data := eng.conn_data ++ [conn_data_zero conn_data cookie]
              cookie := fun c => if c = cookie then conn_data else eng.cookie c
              log := eng.log ++ [ib_event.malloc conn_data] },
          conn_data)

/-- Lines 399-400: `assert(engine->conn_data.count > 0)` and
`conn_data->c_in_use = TRUE`.  Returns the engine and the object pointed to. -/
def innodb_conn_init_mark (eng : innodb_engine_t) (conn_data : Nat) :
    Option (innodb_engine_t × innodb_conn_data_t) :=
  if eng.conn_data.length = 0 then none
  else
    match conn_data_at eng.conn_data conn_data with
    | none => none
    | some cd =>
      let cd1 := { cd with c_in_use := true }
      some ({ eng with conn_data := conn_data_write eng.conn_data cd1 }, cd1)

/-- Lines 381-397: the pointer `conn_data` after the lookup and, for a cookie
bound to nothing, the creation of a connection.  `none` when
`assert(!conn_data || !conn_data->c_in_use)` fails. -/
def innodb_conn_init_lookup (cb : ib_cb_t) (eng : innodb_engine_t) (cookie : Nat) :
    Option (innodb_engine_t × Nat) :=
  let conn_data := eng.cookie cookie
  if conn_data ≠ 0 then
    match conn_data_at eng.conn_data conn_data with
    | none => none
    | some cd => if cd.c_in_use then none else some (eng, conn_data)
  else
    match innodb_conn_init_recycle eng with
    | none => none
    | some eng1 => innodb_conn_init_alloc cb eng1 cookie

/-- Lines 378-402 of `innodb_conn_init`: look the cookie up, create and link a
connection when it has none (after recycling stale ones when the list is longer
than 2048), and mark the connection in use.  Returns the engine and the
connection object `conn_data` points to. -/
def innodb_conn_init_registry (cb : ib_cb_t) (eng : innodb_engine_t) (cookie : Nat) :
    Option (innodb_engine_t × innodb_conn_data_t) :=
  match innodb_conn_init_lookup cb eng cookie with
  | none => none
  | some (eng1, conn_data) => innodb_conn_init_mark eng1 conn_data

/-- Lines 407-545 of `innodb_conn_init`: the work done on the connection object
once it is marked in use.  Returns whether the function returns `conn_data`
(`true`) or `NULL` (`false`), the connection object and the log. -/
def innodb_conn_init_trx (cb : ib_cb_t) (m_use_idx : meta_use_idx_t) (cd : innodb_conn_data_t)
    (log : List ib_event) (is_select : Bool) (lock_mode : ib_lck_mode_t) :
    Bool × innodb_conn_data_t × List ib_event :=
  if cd.c_r_trx = 0 then
    let r_trx := cb.innodb_cb_trx_begin log
    let cd := { cd with c_r_trx := r_trx }
    let log := log ++ [ib_event.trx_begin r_trx]
    let lk := if lock_mode = ib_lck_mode_t.IB_LOCK_X then ib_lck_mode_t.IB_LOCK_X
      else ib_lck_mode_t.IB_LOCK_IS
    let r := cb.innodb_api_begin log cd.c_r_trx cd.c_r_crsr cd.c_r_idx_crsr lk
    let log := log ++ [ib_event.api_begin cd.c_r_trx cd.c_r_crsr cd.c_r_idx_crsr lk r.1 r.2.1 r.2.2]
    let cd := { cd with c_r_crsr := r.2.1, c_r_idx_crsr := r.2.2 }
    if r.1 ≠ ib_err_t.DB_SUCCESS then
      let log := log ++ [ib_event.cursor_close cd.c_r_crsr, ib_event.trx_commit cd.c_r_trx]
      (false, { cd with c_r_trx := 0, c_r_crsr := 0, c_in_use := false }, log)
    else if lock_mode = ib_lck_mode_t.IB_LOCK_X then
      (true, cd, log)
    else if !is_select then
      let trx := cb.innodb_cb_trx_begin log
      let cd := { cd with c_trx := trx }
      let log := log ++ [ib_event.trx_begin trx]
      let w := cb.innodb_api_begin log cd.c_trx cd.c_crsr cd.c_idx_crsr lock_mode
      let log := log
        ++ [ib_event.api_begin cd.c_trx cd.c_crsr cd.c_idx_crsr lock_mode w.1 w.2.1 w.2.2]
      let cd := { cd with c_crsr := w.2.1, c_idx_crsr := w.2.2 }
      if w.1 ≠ ib_err_t.DB_SUCCESS then
        let log := log ++ [ib_event.cursor_close cd.c_crsr]
        let cd := { cd with c_crsr := 0 }
        if cd.c_r_crsr ≠ 0 then
          let log := log ++ [ib_event.cursor_close cd.c_r_crsr]
          (false, { cd with c_r_crsr := 0, c_r_trx := 0, c_in_use := false }, log)
        else
          (false, { cd with c_in_use := false }, log)
      else
        (true, cd, log)
    else
      (true, cd, log)
  else
    let crsr := cd.c_crsr
    if !is_select then
      if crsr = 0 then
        let trx := cb.innodb_cb_trx_begin log
        let cd := { cd with c_trx := trx }
        let log := log ++ [ib_event.trx_begin trx]
        let w := cb.innodb_api_begin log cd.c_trx cd.c_crsr cd.c_idx_crsr lock_mode
        let log := log
          ++ [ib_event.api_begin cd.c_trx cd.c_crsr cd.c_idx_crsr lock_mode w.1 w.2.1 w.2.2]
        let cd := { cd with c_crsr := w.2.1, c_idx_crsr := w.2.2 }
        if w.1 ≠ ib_err_t.DB_SUCCESS then
          let log := log ++ [ib_event.cursor_close cd.c_crsr]
          (false, { cd with c_crsr := 0, c_trx := 0, c_in_use := false }, log)
        else
          (true, cd, log)
      else if cd.c_trx = 0 then
        let trx := cb.innodb_cb_trx_begin log
        let cd := { cd with c_trx := trx }
        let log := log ++ [ib_event.trx_begin trx, ib_event.cursor_new_trx crsr cd.c_trx]
        let err := cb.innodb_cb_cursor_lock log crsr lock_mode
        let log := log ++ [ib_event.cursor_lock crsr lock_mode err]
        if err ≠ ib_err_t.DB_SUCCESS then
          let log := log ++ [ib_event.cursor_close cd.c_crsr]
          (false, { cd with c_crsr := 0, c_trx := 0, c_in_use := false }, log)
        else if m_use_idx = meta_use_idx_t.META_SECONDARY then
          let idx_crsr := cd.c_idx_crsr
          let log := log ++ [ib_event.cursor_new_trx idx_crsr cd.c_trx]
          let err2 := cb.innodb_cb_cursor_lock log idx_crsr lock_mode
          (true, cd, log ++ [ib_event.cursor_lock idx_crsr lock_mode err2])
        else
          (true, cd, log)
      else
        (true, cd, log)
    else
      if cd.c_r_trx = 0 then
        let r_trx := cb.innodb_cb_trx_begin log
        let cd := { cd with c_r_trx := r_trx }
        let log := log ++ [ib_event.trx_begin r_trx, ib_event.cursor_new_trx cd.c_r_crsr cd.c_r_trx]
        let err := cb.innodb_cb_cursor_lock log cd.c_r_crsr lock_mode
        let log := log ++ [ib_event.cursor_lock cd.c_r_crsr lock_mode err]
        if m_use_idx = meta_use_idx_t.META_SECONDARY then
          let idx_crsr := cd.c_r_idx_crsr
          let log := log ++ [ib_event.cursor_new_trx idx_crsr cd.c_r_trx]
          let err2 := cb.innodb_cb_cursor_lock log idx_crsr lock_mode
          (true, cd, log ++ [ib_event.cursor_lock idx_crsr lock_mode err2])
        else
          (true, cd, log)
      else
        (true, cd, log)

/-- Lines 363-546, `innodb_conn_init`: returns the engine and the pointer
returned (`0` for `NULL`). -/
def innodb_conn_init (cb : ib_cb_t) (eng : innodb_engine_t) (cookie : Nat) (is_select : Bool)
    (lock_mode : ib_lck_mode_t) (_has_lock : Bool) : Option (innodb_engine_t × Nat) :=
  match innodb_conn_init_registry cb eng cookie with
  | none => none
  | some (eng1, cd) =>
    let r := innodb_conn_init_trx cb eng1.m_use_idx cd eng1.log is_select lock_mode
    some ({ eng1 with conn_data := conn_data_write eng1.conn_data r.2.1, log := r.2.2 },
      if r.1 then r.2.1.addr else 0)

/-! ## innodb_initialize -/

/-- The configuration block `eng_config_info_t` handed to `innodb_initialize`. -/
structure eng_config_info_t where
  eng_r_batch_size : Nat
  eng_w_batch_size : Nat
  enable_binlog : Bool
  deriving DecidableEq, Repr

/-- Lines 164-187 of `innodb_initialize`: the batch sizes, the binlog flag and
the empty connection list.  `CONN_NUM_READ_COMMIT` and `CONN_NUM_WRITE_COMMIT`
are macros of a header outside the file and are taken as arguments. -/
def innodb_initialize (cb : ib_cb_t) (CONN_NUM_READ_COMMIT CONN_NUM_WRITE_COMMIT : Nat)
    (eng : innodb_engine_t) (my_eng_config : eng_config_info_t) : innodb_engine_t :=
  let r_batch_size :=
    if my_eng_config.eng_r_batch_size ≠ 0 then my_eng_config.eng_r_batch_size
    else CONN_NUM_READ_COMMIT
  let w_batch_size :=
    if my_eng_config.eng_w_batch_size ≠ 0 then my_eng_config.eng_w_batch_size
    else CONN_NUM_WRITE_COMMIT
  let enable_binlog := my_eng_config.enable_binlog
  let enable_binlog := if !enable_binlog then cb.innodb_cb_binlog_enabled else enable_binlog
  let w_batch_size :=
    if enable_binlog then (if w_batch_size = 32 then 1 else w_batch_size) else w_batch_size
  { eng with
      r_batch_size := r_batch_size
      w_batch_size := w_batch_size
      enable_binlog := enable_binlog
      conn_data := [] }

/-! ## Release of a connection -/

/-- Results of the calls `innodb_flush` makes into `innodb_api.c` and into the
default engine.  `innodb_api_cursor_reset(engine, conn_data, CONN_OP_FLUSH)` is
given the connection object and answers with its new contents (it is taken to
write to that object only); `innodb_api_flush` answers with the status of the
truncate; the default engine's `flush` answers with its status. -/
structure ib_api_t where
  innodb_api_cursor_reset : List ib_event → innodb_conn_data_t → innodb_conn_data_t
  innodb_api_flush : List ib_event → ib_err_t
  default_engine_flush : List ib_event → ENGINE_ERROR_CODE

/-- Lines 912-917 of `innodb_flush`: the connection bound to the cookie, if
any, is handed to `innodb_api_cursor_reset`. -/
def innodb_flush_reset (api : ib_api_t) (eng : innodb_engine_t) (cookie : Nat) :
    Option innodb_engine_t :=
  let conn_data := eng.cookie cookie
  if conn_data ≠ 0 then
    match conn_data_at eng.conn_data conn_data with
    | none => none
    | some cd =>
      let cd1 := { api.innodb_api_cursor_reset eng.log cd with addr := cd.addr }
      some { eng with
               conn_data := conn_data_write eng.conn_data cd1
               log := eng.log ++ [ib_event.api_cursor_reset conn_data] }
  else some eng

/-- Lines 912-922 of `innodb_flush`: reset of the caller's connection,
`innodb_conn_clean(innodb_eng, FALSE, TRUE)` and
`innodb_conn_init(innodb_eng, cookie, FALSE, IB_LOCK_X, TRUE)`.  Returns the
engine and the pointer `conn_data`. -/
def innodb_flush_acquire (cb : ib_cb_t) (api : ib_api_t) (eng : innodb_engine_t) (cookie : Nat) :
    Option (innodb_engine_t × Nat) :=
  match innodb_flush_reset api eng cookie with
  | none => none
  | some eng1 =>
    match innodb_conn_clean eng1 false true with
    | none => none
    | some (eng2, _) => innodb_conn_init cb eng2 cookie false ib_lck_mode_t.IB_LOCK_X true

/-- Lines 910-941 of `innodb_flush`: the part run when the routing is not
cache-only. -/
def innodb_flush_store (cb : ib_cb_t) (api : ib_api_t) (eng : innodb_engine_t) (cookie : Nat) :
    Option (innodb_engine_t × ENGINE_ERROR_CODE) :=
  match innodb_flush_acquire cb api eng cookie with
  | none => none
  | some (eng1, conn_data) =>
    if conn_data = 0 then
      some (eng1, ENGINE_ERROR_CODE.ENGINE_SUCCESS)
    else
      match innodb_conn_clean eng1 true true with
      | none => none
      | some (eng2, _) =>
        let ib_err := api.innodb_api_flush eng2.log
        some ({ eng2 with log := eng2.log ++ [ib_event.api_flush ib_err] },
          ENGINE_ERROR_CODE.ENGINE_SUCCESS)

/-- Lines 894-904 of `innodb_flush`: `err`, initialised to `ENGINE_SUCCESS`, and
the engine after the flush of the default engine, which is made when the
routing is cache-only or mixed. -/
def innodb_flush_default (api : ib_api_t) (eng : innodb_engine_t) :
    innodb_engine_t × ENGINE_ERROR_CODE :=
  if eng.m_set_option = meta_set_option_t.META_CACHE
      ∨ eng.m_set_option = meta_set_option_t.META_MIX then
    let err := api.default_engine_flush eng.log
    ({ eng with log := eng.log ++ [ib_event.default_flush err] }, err)
  else
    (eng, ENGINE_ERROR_CODE.ENGINE_SUCCESS)

/-- Lines 886-942, `innodb_flush`: returns the engine and the status handed
back. -/
def innodb_flush (cb : ib_cb_t) (api : ib_api_t) (eng : innodb_engine_t) (cookie : Nat) :
    Option (innodb_engine_t × ENGINE_ERROR_CODE) :=
  let r := innodb_flush_default api eng
  if eng.m_set_option = meta_set_option_t.META_CACHE then
    some r
  else
    innodb_flush_store cb api r.1 cookie

/-! ## innodb_get: length of a multi-column value -/

/-- The value of the C type `int` (32 bits, two's complement) that the integer
`x` wraps to. -/
def wrap_int (x : Int) : Int :=
  (x + 2147483648) % 4294967296 - 2147483648

/-- Lines 693-701 of `innodb_get`: the loop adding up the `int` `total_len` over
the columns of `mci_add_value`, given by their `m_len`; each sum is an `int`. -/
def innodb_get_total_len_loop (m_sep_len : Nat) : List Nat → Int → Int
  | [], total_len => total_len
  | m_len :: rest, total_len =>
    if m_len = 0 then innodb_get_total_len_loop m_sep_len rest total_len
    else innodb_get_total_len_loop m_sep_len rest
      (wrap_int (total_len + wrap_int ((m_len : Int) + (m_sep_len : Int))))

/-- Lines 691-707 of `innodb_get`: `total_len`, the length the item is
allocated with.  `mci_add_value` is `none` for `NULL`, else the `m_len` of its
`mci_add_num` columns; `value_len` is `mci_item[MCI_COL_VALUE].m_len`. -/
def innodb_get_total_len (mci_add_value : Option (List Nat)) (m_sep_len : Nat)
    (value_len : Int) : Int :=
  match mci_add_value with
  | some cols => wrap_int (innodb_get_total_len_loop m_sep_len cols 0 - (m_sep_len : Int))
  | none => value_len

/-- Lines 721-735 of `innodb_get`: the copy loop; the accumulator is the offset
of `c_value` from the start of the item's data area, so the result is the
number of bytes written there. -/
def innodb_get_copy_loop (m_sep_len : Nat) : List Nat → Nat → Nat
  | [], c_value => c_value
  | m_len :: rest, c_value =>
    if m_len = 0 then innodb_get_copy_loop m_sep_len rest c_value
    else innodb_get_copy_loop m_sep_len rest (c_value + m_len + m_sep_len)

/-! ## Predicates used in the statements -/

/-- The condition `clear_all || stale_data` of line 246, as decided for one node
against the cookie bindings of `eng`. -/
def conn_data_removed (eng : innodb_engine_t) (clear_all : Bool) (cd : innodb_conn_data_t) : Bool :=
  clear_all || conn_data_stale eng clear_all cd

/-- The calls `innodb_conn_clean` makes for a node it removes. -/
def conn_data_calls (cd : innodb_conn_data_t) : List ib_event :=
  (conn_data_teardown cd).getD []

/-- What `assert(conn_data->thd)` at line 274 requires of a node: a node with a
locked MySQL table has a session. -/
def thd_asserted (cd : innodb_conn_data_t) : Prop :=
  cd.mysql_tbl ≠ 0 → cd.thd ≠ 0

instance (cd : innodb_conn_data_t) : Decidable (thd_asserted cd) := by
  unfold thd_asserted; infer_instance

/-- The non-null cursor handles a connection holds, in the order in which
`innodb_conn_clean` visits the four fields. -/
def conn_data_cursors (cd : innodb_conn_data_t) : List Nat :=
  [cd.c_idx_crsr, cd.c_r_idx_crsr, cd.c_crsr, cd.c_r_crsr].filter (fun h => h != 0)

/-- The non-null transaction handles a connection holds. -/
def conn_data_trxs (cd : innodb_conn_data_t) : List Nat :=
  [cd.c_r_trx, cd.c_trx].filter (fun t => t != 0)

/-- No cursor handle and no transaction handle is held twice, neither by two
fields of one connection nor by two connections. -/
def handles_distinct (l : List innodb_conn_data_t) : Prop :=
  (l.flatMap conn_data_cursors).Nodup ∧ (l.flatMap conn_data_trxs).Nodup

/-- A connection that `innodb_conn_clean(engine, FALSE, ..)` leaves linked: it is
in use, or its cookie is still bound to this very object. -/
def conn_data_live (eng : innodb_engine_t) (cd : innodb_conn_data_t) : Bool :=
  cd.c_in_use || (eng.cookie cd.c_cookie != 0 && eng.cookie cd.c_cookie == cd.addr)

/-- The connections linked when `innodb_conn_init` allocates for a cookie bound
to nothing: all of them for a list of at most 2048, the live ones above that. -/
def conn_data_recycled (eng : innodb_engine_t) : List innodb_conn_data_t :=
  if 2048 < eng.conn_data.length then eng.conn_data.filter (conn_data_live eng)
  else eng.conn_data

/-- The calls made by the recycling before the allocation: none for a list of
at most 2048, the teardown of every connection that is not live above that. -/
def conn_data_recycle_calls (eng : innodb_engine_t) : List ib_event :=
  if 2048 < eng.conn_data.length then
    (eng.conn_data.filter (fun cd => !conn_data_live eng cd)).flatMap conn_data_calls
  else []

/-- The allocator never returns `NULL` nor the address of one of the objects
of `l`. -/
def malloc_fresh (cb : ib_cb_t) (l : List innodb_conn_data_t) : Prop :=
  ∀ log : List ib_event, cb.malloc log ≠ 0 ∧ ∀ x ∈ l, x.addr ≠ cb.malloc log

/-- A registry of five connections: one idle and still bound to its cookie, one
whose cookie was unbound, one whose cookie was rebound to a newer connection,
that newer connection, and one in use whose cookie was unbound. -/
def registry_example : innodb_engine_t where
  conn_data :=
    [ { addr := 100, c_cookie := 10, c_in_use := false, c_r_trx := 11, c_trx := 12,
        c_r_crsr := 13, c_crsr := 14, c_r_idx_crsr := 15, c_idx_crsr := 16,
        mysql_tbl := 0, thd := 0 },
      { addr := 200, c_cookie := 20, c_in_use := false, c_r_trx := 21, c_trx := 0,
        c_r_crsr := 23, c_crsr := 24, c_r_idx_crsr := 0, c_idx_crsr := 0,
        mysql_tbl := 27, thd := 28 },
      { addr := 300, c_cookie := 30, c_in_use := false, c_r_trx := 0, c_trx := 32,
        c_r_crsr := 33, c_crsr := 34, c_r_idx_crsr := 35, c_idx_crsr := 36,
        mysql_tbl := 0, thd := 38 },
      { addr := 301, c_cookie := 30, c_in_use := false, c_r_trx := 41, c_trx := 0,
        c_r_crsr := 43, c_crsr := 0, c_r_idx_crsr := 0, c_idx_crsr := 0,
        mysql_tbl := 0, thd := 0 },
      { addr := 400, c_cookie := 50, c_in_use := true, c_r_trx := 51, c_trx := 52,
        c_r_crsr := 53, c_crsr := 54, c_r_idx_crsr := 0, c_idx_crsr := 0,
        mysql_tbl := 0, thd := 0 } ]
  cookie := fun c => if c = 10 then 100 else if c = 30 then 301 else 0
  m_use_idx := meta_use_idx_t.META_SECONDARY
  m_set_option := meta_set_option_t.META_INNODB
  r_batch_size := 1
  w_batch_size := 1
  enable_binlog := false
  log := []

/-- A registry of 2049 idle connections without handles, at addresses 1 to 2049
and with the cookie of the same number: the cookie of the first connection has
been unbound (its connection was closed), every other cookie is still bound to
its connection.  Cookies above 2049 are bound to nothing. -/
def registry_full : innodb_engine_t where
  conn_data := conn_data_zero 1 1 :: (List.range 2048).map (fun i => conn_data_zero (i + 2) (i + 2))
  cookie := fun c => if 2 ≤ c ∧ c ≤ 2049 then c else 0
  m_use_idx := meta_use_idx_t.META_CLUSTER
  m_set_option := meta_set_option_t.META_INNODB
  r_batch_size := 1
  w_batch_size := 1
  enable_binlog := false
  log := []

/-- A row store in which every call succeeds and every handle is new. -/
def cb_example : ib_cb_t where
  malloc := fun l => 9000 + l.length
  innodb_cb_trx_begin := fun l => 7000 + l.length
  innodb_api_begin := fun l _ crsr idx_crsr _ =>
    (ib_err_t.DB_SUCCESS, if crsr = 0 then 8000 + l.length else crsr, idx_crsr)
  innodb_cb_cursor_lock := fun _ _ _ => ib_err_t.DB_SUCCESS
  innodb_cb_binlog_enabled := false

/-- A row store that opens a table under an intention-shared lock (the read
path of a non-exclusive request) and refuses every other lock mode. -/
def cb_write_fails : ib_cb_t where
  malloc := fun l => 9000 + l.length
  innodb_cb_trx_begin := fun l => 7000 + l.length
  innodb_api_begin := fun l _ crsr idx_crsr lock_mode =>
    if lock_mode = ib_lck_mode_t.IB_LOCK_IS then
      (ib_err_t.DB_SUCCESS, if crsr = 0 then 8000 + l.length else crsr, idx_crsr)
    else (ib_err_t.DB_ERROR 1, crsr, idx_crsr)
  innodb_cb_cursor_lock := fun _ _ _ => ib_err_t.DB_ERROR 1
  innodb_cb_binlog_enabled := true

/-- No truncate is among the calls by which the log `l1` extends the log `l`. -/
def log_quiet (l l1 : List ib_event) : Prop :=
  ∃ calls : List ib_event, l1 = l ++ calls ∧ ∀ e ∈ calls, ∀ err, e ≠ ib_event.api_flush err

/-- An `innodb_api.c` whose cursor reset commits both transactions, keeps the
cursors and releases the connection, and whose truncate fails. -/
def api_example : ib_api_t where
  innodb_api_cursor_reset := fun _ cd => { cd with c_r_trx := 0, c_trx := 0, c_in_use := false }
  innodb_api_flush := fun _ => ib_err_t.DB_ERROR 7
  default_engine_flush := fun _ => ENGINE_ERROR_CODE.ENGINE_ENOMEM

/-- A registry of two idle connections that have been used before, on a table
searched through a secondary index: the one at 500 (cookie 60) holds its four
cursors and no transaction (both paths committed), the one at 600 (cookie 70)
holds its four cursors and its read transaction (write path committed). -/
def registry_reused : innodb_engine_t where
  conn_data :=
    [ { addr := 500, c_cookie := 60, c_in_use := false, c_r_trx := 0, c_trx := 0,
        c_r_crsr := 63, c_crsr := 64, c_r_idx_crsr := 65, c_idx_crsr := 66,
        mysql_tbl := 0, thd := 0 },
      { addr := 600, c_cookie := 70, c_in_use := false, c_r_trx := 71, c_trx := 0,
        c_r_crsr := 73, c_crsr := 74, c_r_idx_crsr := 75, c_idx_crsr := 76,
        mysql_tbl := 0, thd := 0 } ]
  cookie := fun c => if c = 60 then 500 else if c = 70 then 600 else 0
  m_use_idx := meta_use_idx_t.META_SECONDARY
  m_set_option := meta_set_option_t.META_INNODB
  r_batch_size := 1
  w_batch_size := 1
  enable_binlog := false
  log := []

/-! ## Theorems -/

theorem conn_data_teardown_eq (cd : innodb_conn_data_t) (h : thd_asserted cd) :
    conn_data_teardown cd = some (conn_data_calls cd) := by
  have h' : ¬ (cd.mysql_tbl ≠ 0 ∧ cd.thd = 0) := fun ⟨h1, h2⟩ => h h1 h2
  simp only [conn_data_calls, conn_data_teardown, if_neg h', Option.getD_some]

theorem clean_loop_all (rest : List innodb_conn_data_t) :
    ∀ (kept : List innodb_conn_data_t) (eng : innodb_engine_t) (n : Int),
      (∀ cd ∈ rest, thd_asserted cd) → n + rest.length ≤ INT_MAX →
      innodb_conn_clean_loop true rest kept eng n
        = some ({ eng with
                    conn_data := kept
                    cookie := fun c => if c ∈ rest.map (fun cd => cd.c_cookie) then 0 else eng.cookie c
                    log := eng.log ++ rest.flatMap conn_data_calls },
                n + rest.length) := by
  induction rest with
  | nil => intro kept eng n _ _; simp [innodb_conn_clean_loop]
  | cons cd rest ih =>
    intro kept eng n hwf hb
    have hcd := conn_data_teardown_eq cd (hwf cd (List.mem_cons_self _ _))
    have hlen : ((cd :: rest).length : Int) = rest.length + 1 := by simp
    rw [hlen] at hb
    have hpos : (0 : Int) ≤ rest.length := Int.natCast_nonneg _
    have hn : ¬ (n ≥ INT_MAX) := by
      intro hge
      linarith
    simp only [innodb_conn_clean_loop, Bool.true_or, if_true, hcd, if_neg hn]
    rw [ih kept _ (n + 1) (fun x hx => hwf x (List.mem_cons_of_mem _ hx)) (by linarith)]
    simp only [List.map_cons, List.mem_cons, List.flatMap_cons, List.append_assoc, hlen]
    congr 2
    · congr 1
      funext c
      by_cases h1 : c = cd.c_cookie <;> simp [h1]
    · omega

theorem clean_loop_stale (rest : List innodb_conn_data_t) :
    ∀ (kept : List innodb_conn_data_t) (eng : innodb_engine_t) (n : Int),
      (∀ cd ∈ rest, thd_asserted cd) → n + rest.length ≤ INT_MAX →
      innodb_conn_clean_loop false rest kept eng n
        = some ({ eng with
                    conn_data := kept ++ rest.filter (fun cd => !conn_data_removed eng false cd)
                    log := eng.log
                      ++ (rest.filter (fun cd => conn_data_removed eng false cd)).flatMap conn_data_calls },
                n + (rest.filter (fun cd => conn_data_removed eng false cd)).length) := by
  induction rest with
  | nil => intro kept eng n _ _; simp [innodb_conn_clean_loop]
  | cons cd rest ih =>
    intro kept eng n hwf hb
    have hcd := conn_data_teardown_eq cd (hwf cd (List.mem_cons_self _ _))
    have hlen : ((cd :: rest).length : Int) = rest.length + 1 := by simp
    rw [hlen] at hb
    have hpos : (0 : Int) ≤ rest.length := Int.natCast_nonneg _
    have hn : ¬ (n ≥ INT_MAX) := by
      intro hge
      linarith
    have hwf' : ∀ x ∈ rest, thd_asserted x := fun x hx => hwf x (List.mem_cons_of_mem _ hx)
    by_cases hs : conn_data_stale eng false cd = true
    · have hr : conn_data_removed eng false cd = true := by simp [conn_data_removed, hs]
      simp only [innodb_conn_clean_loop, Bool.false_or, hs, if_true, hcd, if_neg hn,
        Bool.false_eq_true, if_false]
      rw [ih kept _ (n + 1) hwf' (by linarith)]
      have hrm : conn_data_removed { eng with log := eng.log ++ conn_data_calls cd } false
          = conn_data_removed eng false := rfl
      simp only [hrm, List.filter_cons, hr, Bool.not_true, Bool.false_eq_true, if_false, if_true,
        List.flatMap_cons, List.append_assoc, List.length_cons]
      congr 2
      push_cast
      ring
    · have hr : conn_data_removed eng false cd = false := by
        simpa [conn_data_removed] using hs
      simp only [innodb_conn_clean_loop, Bool.false_or, hs, Bool.false_eq_true, if_false]
      rw [ih (kept ++ [cd]) eng n hwf' (by linarith)]
      simp only [List.filter_cons, hr, Bool.not_false, if_true, Bool.false_eq_true, if_false,
        List.append_assoc, List.singleton_append]

/-! ### Counting the calls of a scan -/

theorem count_flatMap_filter_add {α β : Type} [DecidableEq β] (f : α → List β) (p : α → Bool)
    (b : β) (l : List α) :
    ((l.filter p).flatMap f).count b + ((l.filter (fun a => !p a)).flatMap f).count b
      = (l.flatMap f).count b := by
  induction l with
  | nil => simp
  | cons a l ih =>
    by_cases hp : p a = true
    · simp only [List.filter_cons, hp, if_true, Bool.not_true, Bool.false_eq_true, if_false,
        List.flatMap_cons, List.count_append]
      omega
    · have hp' : p a = false := by simpa using hp
      simp only [List.filter_cons, hp', Bool.false_eq_true, if_false, Bool.not_false, if_true,
        List.flatMap_cons, List.count_append]
      omega

theorem count_flatMap_congr {α β γ : Type} [DecidableEq β] [DecidableEq γ]
    (f : α → List β) (g : α → List γ) (b : β) (c : γ) (l : List α)
    (h : ∀ a ∈ l, (f a).count b = (g a).count c) :
    (l.flatMap f).count b = (l.flatMap g).count c := by
  induction l with
  | nil => simp
  | cons a l ih =>
    simp only [List.flatMap_cons, List.count_append]
    rw [h a (List.mem_cons_self _ _), ih (fun x hx => h x (List.mem_cons_of_mem _ hx))]

theorem count_close_one (h c : Nat) :
    (if c ≠ 0 then [ib_event.cursor_close c] else []).count (ib_event.cursor_close h)
      = ([c].filter (fun x => x != 0)).count h := by
  by_cases hc : c = 0
  · simp [hc]
  · by_cases hh : c = h
    · subst hh; simp [hc]
    · simp [hc, List.count_singleton, hh]

theorem count_commit_one (t c : Nat) :
    (if c ≠ 0 then [ib_event.trx_commit c] else []).count (ib_event.trx_commit t)
      = ([c].filter (fun x => x != 0)).count t := by
  by_cases hc : c = 0
  · simp [hc]
  · by_cases hh : c = t
    · subst hh; simp [hc]
    · simp [hc, List.count_singleton, hh]

theorem conn_data_calls_eq (cd : innodb_conn_data_t) (hwf : thd_asserted cd) :
    conn_data_calls cd =
      (if cd.c_idx_crsr ≠ 0 then [ib_event.cursor_close cd.c_idx_crsr] else [])
        ++ (if cd.c_r_idx_crsr ≠ 0 then [ib_event.cursor_close cd.c_r_idx_crsr] else [])
        ++ (if cd.c_crsr ≠ 0 then [ib_event.cursor_close cd.c_crsr] else [])
        ++ (if cd.c_r_crsr ≠ 0 then [ib_event.cursor_close cd.c_r_crsr] else [])
        ++ (if cd.c_r_trx ≠ 0 then [ib_event.trx_commit cd.c_r_trx] else [])
        ++ (if cd.c_trx ≠ 0 then [ib_event.trx_commit cd.c_trx] else [])
        ++ (if cd.mysql_tbl ≠ 0 then [ib_event.unlock_table cd.thd cd.mysql_tbl] else [])
        ++ (if cd.thd ≠ 0 then [ib_event.close_thd cd.thd] else [])
        ++ [ib_event.free cd.addr] := by
  have h' : ¬ (cd.mysql_tbl ≠ 0 ∧ cd.thd = 0) := fun ⟨h1, h2⟩ => hwf h1 h2
  simp only [conn_data_calls, conn_data_teardown, if_neg h', Option.getD_some]

theorem count_close_calls (cd : innodb_conn_data_t) (hwf : thd_asserted cd) (h : Nat) :
    (conn_data_calls cd).count (ib_event.cursor_close h) = (conn_data_cursors cd).count h := by
  have e : conn_data_cursors cd
      = [cd.c_idx_crsr].filter (fun x => x != 0) ++ [cd.c_r_idx_crsr].filter (fun x => x != 0)
        ++ [cd.c_crsr].filter (fun x => x != 0) ++ [cd.c_r_crsr].filter (fun x => x != 0) := by
    simp only [conn_data_cursors, ← List.filter_append]
    rfl
  rw [conn_data_calls_eq cd hwf, e]
  simp only [List.count_append, count_close_one]
  have z1 : ∀ c : Nat, (if c ≠ 0 then [ib_event.trx_commit c] else []).count
      (ib_event.cursor_close h) = 0 := by
    intro c; by_cases hc : c = 0 <;> simp [hc]
  have z2 : (if cd.mysql_tbl ≠ 0 then [ib_event.unlock_table cd.thd cd.mysql_tbl] else []).count
      (ib_event.cursor_close h) = 0 := by
    by_cases hc : cd.mysql_tbl = 0 <;> simp [hc]
  have z3 : (if cd.thd ≠ 0 then [ib_event.close_thd cd.thd] else []).count
      (ib_event.cursor_close h) = 0 := by
    by_cases hc : cd.thd = 0 <;> simp [hc]
  have z4 : [ib_event.free cd.addr].count (ib_event.cursor_close h) = 0 := by simp
  rw [z1, z1, z2, z3, z4]
  omega

theorem count_commit_calls (cd : innodb_conn_data_t) (hwf : thd_asserted cd) (t : Nat) :
    (conn_data_calls cd).count (ib_event.trx_commit t) = (conn_data_trxs cd).count t := by
  have e : conn_data_trxs cd
      = [cd.c_r_trx].filter (fun x => x != 0) ++ [cd.c_trx].filter (fun x => x != 0) := by
    simp only [conn_data_trxs, ← List.filter_append]
    rfl
  rw [conn_data_calls_eq cd hwf, e]
  simp only [List.count_append, count_commit_one]
  have z1 : ∀ c : Nat, (if c ≠ 0 then [ib_event.cursor_close c] else []).count
      (ib_event.trx_commit t) = 0 := by
    intro c; by_cases hc : c = 0 <;> simp [hc]
  have z2 : (if cd.mysql_tbl ≠ 0 then [ib_event.unlock_table cd.thd cd.mysql_tbl] else []).count
      (ib_event.trx_commit t) = 0 := by
    by_cases hc : cd.mysql_tbl = 0 <;> simp [hc]
  have z3 : (if cd.thd ≠ 0 then [ib_event.close_thd cd.thd] else []).count
      (ib_event.trx_commit t) = 0 := by
    by_cases hc : cd.thd = 0 <;> simp [hc]
  have z4 : [ib_event.free cd.addr].count (ib_event.trx_commit t) = 0 := by simp
  rw [z1, z1, z1, z1, z2, z3, z4]
  omega

/-- In a duplicate-free collection of handles, a handle held by a connection
inside the part selected by `p` is counted once there, and a handle held by a
connection outside it is not counted there at all. -/
theorem count_selected_handles (f : innodb_conn_data_t → List Nat)
    (p : innodb_conn_data_t → Bool) (l : List innodb_conn_data_t) (hnd : (l.flatMap f).Nodup)
    (cd : innodb_conn_data_t) (hcd : cd ∈ l) (h : Nat) (hh : h ∈ f cd) :
    ((l.filter p).flatMap f).count h = if p cd then 1 else 0 := by
  have hsum := count_flatMap_filter_add f p h l
  have htot : (l.flatMap f).count h ≤ 1 := List.nodup_iff_count_le_one.mp hnd h
  by_cases hp : p cd = true
  · have hin : h ∈ (l.filter p).flatMap f :=
      List.mem_flatMap.mpr ⟨cd, List.mem_filter.mpr ⟨hcd, hp⟩, hh⟩
    have := List.count_pos_iff.mpr hin
    simp only [hp, if_true]
    omega
  · have hp' : p cd = false := by simpa using hp
    have hin : h ∈ (l.filter (fun a => !p a)).flatMap f :=
      List.mem_flatMap.mpr ⟨cd, List.mem_filter.mpr ⟨hcd, by simp [hp']⟩, hh⟩
    have := List.count_pos_iff.mpr hin
    simp only [hp', Bool.false_eq_true, if_false]
    omega

/-! ### innodb_conn_clean -/

theorem innodb_conn_clean_eq (eng : innodb_engine_t) (clear_all has_lock : Bool)
    (hthd : ∀ cd ∈ eng.conn_data, thd_asserted cd)
    (hlen : (eng.conn_data.length : Int) ≤ INT_MAX) :
    innodb_conn_clean eng clear_all has_lock
      = some ({ eng with
                  conn_data := eng.conn_data.filter (fun cd => !conn_data_removed eng clear_all cd)
                  cookie := fun c =>
                    if clear_all = true ∧ c ∈ eng.conn_data.map (fun cd => cd.c_cookie) then 0
                    else eng.cookie c
                  log := eng.log
                    ++ (eng.conn_data.filter
                          (fun cd => conn_data_removed eng clear_all cd)).flatMap conn_data_calls },
              ((eng.conn_data.filter (fun cd => conn_data_removed eng clear_all cd)).length : Int)) := by
  cases clear_all with
  | true =>
    have hall : ∀ cd : innodb_conn_data_t, conn_data_removed eng true cd = true := fun _ => rfl
    simp only [innodb_conn_clean, clean_loop_all eng.conn_data [] eng 0 hthd (by linarith), hall,
      Bool.not_true, List.filter_false, List.filter_true, List.length_nil, bne_self_eq_false,
      Bool.and_false, Bool.false_eq_true, if_false, true_and, zero_add]
  | false =>
    simp only [innodb_conn_clean, clean_loop_stale eng.conn_data [] eng 0 hthd (by linarith),
      Bool.false_and, Bool.false_eq_true, if_false, false_and, List.nil_append, zero_add]

/-- C1: for every registry (whose nodes satisfy the assertion on `thd` made at
line 274 and whose length fits the `int` counter), `innodb_conn_clean` with
`clear_all = true` returns normally, leaves the registry empty with entry count
0, and returns exactly the number of entries the registry held before. -/
theorem innodb_conn_clean_all_empties (eng : innodb_engine_t) (has_lock : Bool)
    (hthd : ∀ cd ∈ eng.conn_data, thd_asserted cd)
    (hlen : (eng.conn_data.length : Int) ≤ INT_MAX) :
    ∃ eng1 : innodb_engine_t,
      innodb_conn_clean eng true has_lock = some (eng1, (eng.conn_data.length : Int))
        ∧ eng1.conn_data = [] ∧ eng1.conn_data.length = 0 := by
  have hall : ∀ cd : innodb_conn_data_t, conn_data_removed eng true cd = true := fun _ => rfl
  rw [innodb_conn_clean_eq eng true has_lock hthd hlen]
  simp only [hall, Bool.not_true, List.filter_false, List.filter_true]
  exact ⟨_, rfl, rfl, rfl⟩

theorem innodb_conn_clean_all_empties_witness :
    (∀ cd ∈ registry_example.conn_data, thd_asserted cd)
      ∧ (registry_example.conn_data.length : Int) ≤ INT_MAX
      ∧ ∃ eng1 : innodb_engine_t,
          innodb_conn_clean registry_example true false
              = some (eng1, (registry_example.conn_data.length : Int))
            ∧ eng1.conn_data = [] ∧ eng1.conn_data.length = 0 :=
  ⟨by decide, by decide,
    innodb_conn_clean_all_empties registry_example false (by decide) (by decide)⟩

/-- C2: for every registry (nodes satisfying the `thd` assertion, length within
`int`), `innodb_conn_clean` with `clear_all = false` returns normally; the
registry afterwards consists of exactly the nodes that are in use or whose
cookie is still bound to that very node, as they were and in their original
order; the nodes dropped are exactly those not in use whose cookie is bound to
NULL or to another object; the cookie bindings are untouched; and the value
returned is the number of nodes dropped. -/
theorem innodb_conn_clean_stale_only (eng : innodb_engine_t) (has_lock : Bool)
    (hthd : ∀ cd ∈ eng.conn_data, thd_asserted cd)
    (hlen : (eng.conn_data.length : Int) ≤ INT_MAX) :
    ∃ (eng1 : innodb_engine_t) (num_freed : Int),
      innodb_conn_clean eng false has_lock = some (eng1, num_freed)
        ∧ eng1.conn_data
            = eng.conn_data.filter
                (fun cd => cd.c_in_use
                  || (eng.cookie cd.c_cookie != 0 && eng.cookie cd.c_cookie == cd.addr))
        ∧ (∀ cd ∈ eng.conn_data,
            cd ∉ eng1.conn_data ↔
              (cd.c_in_use = false
                ∧ (eng.cookie cd.c_cookie = 0 ∨ eng.cookie cd.c_cookie ≠ cd.addr)))
        ∧ eng1.cookie = eng.cookie
        ∧ num_freed
            = ((eng.conn_data.filter
                (fun cd => !cd.c_in_use
                  && (eng.cookie cd.c_cookie == 0 || eng.cookie cd.c_cookie != cd.addr))).length : Int)
        ∧ num_freed = (eng.conn_data.length : Int) - (eng1.conn_data.length : Int) := by
  have hrem : ∀ cd : innodb_conn_data_t, conn_data_removed eng false cd
      = (!cd.c_in_use && (eng.cookie cd.c_cookie == 0 || eng.cookie cd.c_cookie != cd.addr)) := by
    intro cd
    cases hu : cd.c_in_use <;> simp [conn_data_removed, conn_data_stale, hu]
  have hkeep : ∀ cd : innodb_conn_data_t, (!conn_data_removed eng false cd)
      = (cd.c_in_use || (eng.cookie cd.c_cookie != 0 && eng.cookie cd.c_cookie == cd.addr)) := by
    intro cd
    rw [hrem]
    cases cd.c_in_use <;> cases h0 : (eng.cookie cd.c_cookie == 0)
      <;> cases h1 : (eng.cookie cd.c_cookie == cd.addr) <;> simp [bne, h0, h1]
  have hcount := List.length_eq_length_filter_add (l := eng.conn_data)
    (fun cd => conn_data_removed eng false cd)
  refine ⟨_, _, innodb_conn_clean_eq eng false has_lock hthd hlen, ?_, ?_, ?_, ?_, ?_⟩
  · simp only [hkeep]
  · intro cd hcd
    simp only [hkeep, List.mem_filter, hcd, true_and]
    cases cd.c_in_use <;> by_cases h0 : eng.cookie cd.c_cookie = 0
      <;> by_cases h1 : eng.cookie cd.c_cookie = cd.addr <;> simp [h0, h1]
  · funext c
    simp
  · simp only [hrem]
  · simp only [hcount]
    push_cast
    ring

theorem innodb_conn_clean_stale_only_witness :
    (∀ cd ∈ registry_example.conn_data, thd_asserted cd)
      ∧ (registry_example.conn_data.length : Int) ≤ INT_MAX
      ∧ ∃ (eng1 : innodb_engine_t) (num_freed : Int),
          innodb_conn_clean registry_example false true = some (eng1, num_freed)
            ∧ eng1.conn_data
                = registry_example.conn_data.filter
                    (fun cd => cd.c_in_use
                      || (registry_example.cookie cd.c_cookie != 0
                          && registry_example.cookie cd.c_cookie == cd.addr))
            ∧ (∀ cd ∈ registry_example.conn_data,
                cd ∉ eng1.conn_data ↔
                  (cd.c_in_use = false
                    ∧ (registry_example.cookie cd.c_cookie = 0
                        ∨ registry_example.cookie cd.c_cookie ≠ cd.addr)))
            ∧ eng1.cookie = registry_example.cookie
            ∧ num_freed
                = ((registry_example.conn_data.filter
                    (fun cd => !cd.c_in_use
                      && (registry_example.cookie cd.c_cookie == 0
                          || registry_example.cookie cd.c_cookie != cd.addr))).length : Int)
            ∧ num_freed
                = (registry_example.conn_data.length : Int) - (eng1.conn_data.length : Int) :=
  ⟨by decide, by decide,
    innodb_conn_clean_stale_only registry_example true (by decide) (by decide)⟩

/-- C3: in a registry where no handle is held twice (nodes satisfying the `thd`
assertion, length within `int`), the calls made by one `innodb_conn_clean`, for
either value of `clear_all`, contain exactly one `innodb_cb_cursor_close` for
each non-null cursor handle (`c_idx_crsr`, `c_r_idx_crsr`, `c_crsr`,
`c_r_crsr`) and exactly one `innodb_cb_trx_commit` for each non-null
transaction handle (`c_r_trx`, `c_trx`) of every node that was removed, and no
close and no commit at all for a handle of a node that stayed. -/
theorem innodb_conn_clean_closes_once (eng : innodb_engine_t) (clear_all has_lock : Bool)
    (hthd : ∀ cd ∈ eng.conn_data, thd_asserted cd)
    (hlen : (eng.conn_data.length : Int) ≤ INT_MAX)
    (hdist : handles_distinct eng.conn_data) :
    ∃ (eng1 : innodb_engine_t) (num_freed : Int) (calls : List ib_event),
      innodb_conn_clean eng clear_all has_lock = some (eng1, num_freed)
        ∧ eng1.log = eng.log ++ calls
        ∧ ∀ cd ∈ eng.conn_data,
            (cd ∉ eng1.conn_data →
              (∀ h ∈ conn_data_cursors cd, calls.count (ib_event.cursor_close h) = 1)
                ∧ (∀ t ∈ conn_data_trxs cd, calls.count (ib_event.trx_commit t) = 1))
            ∧ (cd ∈ eng1.conn_data →
              (∀ h ∈ conn_data_cursors cd, calls.count (ib_event.cursor_close h) = 0)
                ∧ (∀ t ∈ conn_data_trxs cd, calls.count (ib_event.trx_commit t) = 0)) := by
  refine ⟨_, _, _, innodb_conn_clean_eq eng clear_all has_lock hthd hlen, rfl, ?_⟩
  have hwf : ∀ cd ∈ eng.conn_data.filter (fun cd => conn_data_removed eng clear_all cd),
      thd_asserted cd := fun cd hcd => hthd cd (List.mem_filter.mp hcd).1
  have hclose : ∀ (cd : innodb_conn_data_t), cd ∈ eng.conn_data →
      ∀ h ∈ conn_data_cursors cd,
        ((eng.conn_data.filter (fun cd => conn_data_removed eng clear_all cd)).flatMap
          conn_data_calls).count (ib_event.cursor_close h)
          = if conn_data_removed eng clear_all cd then 1 else 0 := by
    intro cd hcd h hh
    rw [count_flatMap_congr conn_data_calls conn_data_cursors (ib_event.cursor_close h) h _
      (fun a ha => count_close_calls a (hwf a ha) h)]
    exact count_selected_handles conn_data_cursors _ eng.conn_data hdist.1 cd hcd h hh
  have hcommit : ∀ (cd : innodb_conn_data_t), cd ∈ eng.conn_data →
      ∀ t ∈ conn_data_trxs cd,
        ((eng.conn_data.filter (fun cd => conn_data_removed eng clear_all cd)).flatMap
          conn_data_calls).count (ib_event.trx_commit t)
          = if conn_data_removed eng clear_all cd then 1 else 0 := by
    intro cd hcd t ht
    rw [count_flatMap_congr conn_data_calls conn_data_trxs (ib_event.trx_commit t) t _
      (fun a ha => count_commit_calls a (hwf a ha) t)]
    exact count_selected_handles conn_data_trxs _ eng.conn_data hdist.2 cd hcd t ht
  intro cd hcd
  constructor
  · intro hout
    have hr : conn_data_removed eng clear_all cd = true := by
      by_contra hne
      exact hout (List.mem_filter.mpr ⟨hcd, by simpa using hne⟩)
    exact ⟨fun h hh => by rw [hclose cd hcd h hh, if_pos hr],
      fun t ht => by rw [hcommit cd hcd t ht, if_pos hr]⟩
  · intro hin
    have hr : ¬ conn_data_removed eng clear_all cd = true := by
      have := (List.mem_filter.mp hin).2
      simpa using this
    exact ⟨fun h hh => by rw [hclose cd hcd h hh, if_neg hr],
      fun t ht => by rw [hcommit cd hcd t ht, if_neg hr]⟩

theorem innodb_conn_clean_closes_once_witness :
    (∀ cd ∈ registry_example.conn_data, thd_asserted cd)
      ∧ (registry_example.conn_data.length : Int) ≤ INT_MAX
      ∧ handles_distinct registry_example.conn_data
      ∧ ∃ (eng1 : innodb_engine_t) (num_freed : Int) (calls : List ib_event),
          innodb_conn_clean registry_example false true = some (eng1, num_freed)
            ∧ eng1.log = registry_example.log ++ calls
            ∧ ∀ cd ∈ registry_example.conn_data,
                (cd ∉ eng1.conn_data →
                  (∀ h ∈ conn_data_cursors cd, calls.count (ib_event.cursor_close h) = 1)
                    ∧ (∀ t ∈ conn_data_trxs cd, calls.count (ib_event.trx_commit t) = 1))
                ∧ (cd ∈ eng1.conn_data →
                  (∀ h ∈ conn_data_cursors cd, calls.count (ib_event.cursor_close h) = 0)
                    ∧ (∀ t ∈ conn_data_trxs cd, calls.count (ib_event.trx_commit t) = 0)) :=
  ⟨by decide, by decide, ⟨by decide, by decide⟩,
    innodb_conn_clean_closes_once registry_example false true (by decide) (by decide)
      ⟨by decide, by decide⟩⟩

/-! ### innodb_initialize -/

/-- C10 (as stated, refuted): with the binlog enabled by the configuration and a
configured write batch size of 5, `w_batch_size` is 5 after `innodb_initialize`,
not 1 (the two default macros, here 1048510 and 32, are not consulted). -/
theorem innodb_initialize_binlog_keeps_configured :
    ( innodb_initialize cb_example 1048510 32 registry_example
        { eng_r_batch_size := 0, eng_w_batch_size := 5, enable_binlog := true }).enable_binlog
        = true
      ∧ ( innodb_initialize cb_example 1048510 32 registry_example
        { eng_r_batch_size := 0, eng_w_batch_size := 5, enable_binlog := true }).w_batch_size = 5
      ∧ ( innodb_initialize cb_example 1048510 32 registry_example
        { eng_r_batch_size := 0, eng_w_batch_size := 5, enable_binlog := true }).w_batch_size ≠ 1 := by
  refine ⟨rfl, rfl, ?_⟩
  decide

/-- C10 (amended): when the binlog is enabled, by the configuration flag or by
`innodb_cb_binlog_enabled()`, `innodb_initialize` sets `w_batch_size` to 1
exactly when the size resolved from the configuration (`eng_w_batch_size`, or
`CONN_NUM_WRITE_COMMIT` when that is zero) is 32 or already 1; any other
resolved size is kept as it is. -/
theorem innodb_initialize_binlog_batch (cb : ib_cb_t) (d_r d_w : Nat) (eng : innodb_engine_t)
    (cfg : eng_config_info_t)
    (hbin : cfg.enable_binlog = true ∨ cb.innodb_cb_binlog_enabled = true) :
    ( innodb_initialize cb d_r d_w eng cfg).enable_binlog = true
      ∧ ( innodb_initialize cb d_r d_w eng cfg).w_batch_size
          = (if (if cfg.eng_w_batch_size ≠ 0 then cfg.eng_w_batch_size else d_w) = 32 then 1
              else (if cfg.eng_w_batch_size ≠ 0 then cfg.eng_w_batch_size else d_w))
      ∧ (( innodb_initialize cb d_r d_w eng cfg).w_batch_size = 1 ↔
          ((if cfg.eng_w_batch_size ≠ 0 then cfg.eng_w_batch_size else d_w) = 32
            ∨ (if cfg.eng_w_batch_size ≠ 0 then cfg.eng_w_batch_size else d_w) = 1)) := by
  have hb : (if (!cfg.enable_binlog) = true then cb.innodb_cb_binlog_enabled
      else cfg.enable_binlog) = true := by
    rcases hbin with h | h
    · simp [h]
    · cases hc : cfg.enable_binlog <;> simp [h]
  refine ⟨?_, ?_, ?_⟩
  · simpa [ innodb_initialize] using hb
  · simp only [ innodb_initialize, hb, if_true]
  · simp only [ innodb_initialize, hb, if_true]
    split_ifs <;> omega

theorem innodb_initialize_binlog_batch_witness :
    (cb_write_fails.innodb_cb_binlog_enabled = true)
      ∧ ( innodb_initialize cb_write_fails 1048510 32 registry_example
          { eng_r_batch_size := 0, eng_w_batch_size := 0, enable_binlog := false }).w_batch_size = 1 := by
  have h := innodb_initialize_binlog_batch cb_write_fails 1048510 32 registry_example
    { eng_r_batch_size := 0, eng_w_batch_size := 0, enable_binlog := false } (Or.inr rfl)
  exact ⟨rfl, h.2.2.mpr (Or.inl (by decide))⟩

/-! ### innodb_conn_init: the connection object -/

theorem innodb_conn_init_trx_addr (cb : ib_cb_t) (m : meta_use_idx_t) (cd : innodb_conn_data_t)
    (log : List ib_event) (is_select : Bool) (lock_mode : ib_lck_mode_t) :
    (innodb_conn_init_trx cb m cd log is_select lock_mode).2.1.addr = cd.addr
      ∧ (innodb_conn_init_trx cb m cd log is_select lock_mode).2.1.c_cookie = cd.c_cookie := by
  simp only [innodb_conn_init_trx]
  constructor <;> (split_ifs <;> rfl)

theorem conn_data_at_write_self (l : List innodb_conn_data_t) (cd y : innodb_conn_data_t)
    (h : conn_data_at (conn_data_write l cd) cd.addr = some y) : y = cd := by
  induction l with
  | nil => simp [conn_data_at, conn_data_write] at h
  | cons x l ih =>
    by_cases hx : x.addr = cd.addr
    · simp [conn_data_at, conn_data_write, hx] at h
      exact h.symm
    · have hx' : (x.addr == cd.addr) = false := by simpa using hx
      simp only [conn_data_at, conn_data_write, List.map_cons, if_neg hx, List.find?_cons,
        hx'] at h
      exact ih h

theorem innodb_conn_init_of_registry (cb : ib_cb_t) (eng eng1 : innodb_engine_t)
    (cd1 : innodb_conn_data_t) (cookie : Nat) (is_select : Bool) (lock_mode : ib_lck_mode_t)
    (has_lock : Bool) (h : innodb_conn_init_registry cb eng cookie = some (eng1, cd1)) :
    innodb_conn_init cb eng cookie is_select lock_mode has_lock
      = some ({ eng1 with
                  conn_data := conn_data_write eng1.conn_data
                    (innodb_conn_init_trx cb eng1.m_use_idx cd1 eng1.log is_select lock_mode).2.1
                  log := (innodb_conn_init_trx cb eng1.m_use_idx cd1 eng1.log is_select
                    lock_mode).2.2 },
              if (innodb_conn_init_trx cb eng1.m_use_idx cd1 eng1.log is_select lock_mode).1
              then (innodb_conn_init_trx cb eng1.m_use_idx cd1 eng1.log is_select lock_mode).2.1.addr
              else 0) := by
  simp only [innodb_conn_init, h]

theorem conn_data_at_write_of_mem (l : List innodb_conn_data_t) (cd : innodb_conn_data_t)
    (h : ∃ x ∈ l, x.addr = cd.addr) : conn_data_at (conn_data_write l cd) cd.addr = some cd := by
  induction l with
  | nil => obtain ⟨x, hx, _⟩ := h; cases hx
  | cons y l ih =>
    by_cases hy : y.addr = cd.addr
    · simp [conn_data_at, conn_data_write, hy]
    · have hy' : (y.addr == cd.addr) = false := by simpa using hy
      obtain ⟨x, hx, hxa⟩ := h
      have hxl : x ∈ l := by
        rcases List.mem_cons.mp hx with rfl | hxl
        · exact absurd hxa hy
        · exact hxl
      have := ih ⟨x, hxl, hxa⟩
      simpa [conn_data_at, conn_data_write, List.find?_cons, hy, hy'] using this

theorem conn_data_at_some (l : List innodb_conn_data_t) (p : Nat) (cd : innodb_conn_data_t)
    (h : conn_data_at l p = some cd) : cd ∈ l ∧ cd.addr = p := by
  refine ⟨List.mem_of_find?_eq_some h, ?_⟩
  have := List.find?_some h
  simpa using this

theorem innodb_conn_init_mark_at (eng eng1 : innodb_engine_t) (p : Nat)
    (cd1 : innodb_conn_data_t) (h : innodb_conn_init_mark eng p = some (eng1, cd1)) :
    ∃ cd, conn_data_at eng.conn_data p = some cd ∧ cd1 = { cd with c_in_use := true }
      ∧ eng1 = { eng with conn_data := conn_data_write eng.conn_data cd1 }
      ∧ conn_data_at eng1.conn_data cd1.addr = some cd1 ∧ cd1.addr = p := by
  unfold innodb_conn_init_mark at h
  split_ifs at h with he
  cases hfind : conn_data_at eng.conn_data p with
  | none => simp [hfind] at h
  | some cd =>
    simp only [hfind, Option.some.injEq, Prod.mk.injEq] at h
    obtain ⟨h1, h2⟩ := h
    obtain ⟨hm, ha⟩ := conn_data_at_some _ _ _ hfind
    subst h2
    refine ⟨cd, rfl, rfl, h1.symm, ?_, ha⟩
    rw [← h1]
    exact conn_data_at_write_of_mem _ _ ⟨cd, hm, rfl⟩

/-- After the registry step the object returned is the one found at its own
address in the registry, and it is in use. -/
theorem innodb_conn_init_registry_at (cb : ib_cb_t) (eng eng1 : innodb_engine_t) (cookie : Nat)
    (cd1 : innodb_conn_data_t) (h : innodb_conn_init_registry cb eng cookie = some (eng1, cd1)) :
    conn_data_at eng1.conn_data cd1.addr = some cd1 ∧ cd1.c_in_use = true := by
  unfold innodb_conn_init_registry at h
  cases hl : innodb_conn_init_lookup cb eng cookie with
  | none => simp [hl] at h
  | some r =>
    obtain ⟨e, p⟩ := r
    simp only [hl] at h
    obtain ⟨cd, _, hcd, _, hat, _⟩ := innodb_conn_init_mark_at e eng1 p cd1 h
    exact ⟨hat, by rw [hcd]⟩

theorem innodb_conn_init_trx_exclusive (cb : ib_cb_t) (m : meta_use_idx_t)
    (cd : innodb_conn_data_t) (log : List ib_event) (is_select : Bool)
    (hpath : cd.c_r_trx = 0 ∨ is_select = true) :
    (innodb_conn_init_trx cb m cd log is_select ib_lck_mode_t.IB_LOCK_X).2.1.c_trx = cd.c_trx
      ∧ (innodb_conn_init_trx cb m cd log is_select ib_lck_mode_t.IB_LOCK_X).2.1.c_crsr = cd.c_crsr
      ∧ (innodb_conn_init_trx cb m cd log is_select ib_lck_mode_t.IB_LOCK_X).2.1.c_idx_crsr
          = cd.c_idx_crsr := by
  simp only [innodb_conn_init_trx]
  by_cases h0 : cd.c_r_trx = 0
  · simp only [h0, if_true]
    split_ifs <;> exact ⟨rfl, rfl, rfl⟩
  · have hs : is_select = true := by
      rcases hpath with h | h
      · exact absurd h h0
      · exact h
    simp only [h0, if_false, hs, Bool.not_true, Bool.false_eq_true]
    simp

/-- C7 (as stated, refuted): on the idle connection at address 301, which holds
a read transaction (41) and no write cursor, a mutating `innodb_conn_init` with
`IB_LOCK_X` begins a write transaction and opens a write cursor: `c_trx` goes
from 0 to 7000 and `c_crsr` from 0 to 8001. -/
theorem innodb_conn_init_exclusive_reused_opens_write :
    (conn_data_at registry_example.conn_data (registry_example.cookie 30)).map
        (fun cd => (cd.addr, cd.c_in_use, cd.c_r_trx, cd.c_trx, cd.c_crsr))
      = some (301, false, 41, 0, 0)
    ∧ (innodb_conn_init cb_example registry_example 30 false ib_lck_mode_t.IB_LOCK_X false).map
        (fun r => (r.2, (conn_data_at r.1.conn_data 301).map
          (fun cd => (cd.c_r_trx, cd.c_trx, cd.c_crsr)), r.1.log))
      = some (301, some (41, 7000, 8001),
          [ib_event.trx_begin 7000,
           ib_event.api_begin 7000 0 0 ib_lck_mode_t.IB_LOCK_X ib_err_t.DB_SUCCESS 8001 0]) := by
  constructor <;> rfl

/-- C7 (amended): `innodb_conn_init` called with `IB_LOCK_X` returns with the
write-path fields `c_trx`, `c_crsr` and `c_idx_crsr` of the connection exactly
as they were, whenever the connection has no read transaction when the call
starts (fresh or reset; either value of `is_select`) or the request is
read-only.  (A mutating request on a connection whose read transaction is open
is not covered.) -/
theorem innodb_conn_init_exclusive_frame (cb : ib_cb_t) (eng : innodb_engine_t) (cookie : Nat)
    (is_select has_lock : Bool) (cd1 : innodb_conn_data_t)
    (hreg : (innodb_conn_init_registry cb eng cookie).map Prod.snd = some cd1)
    (hpath : cd1.c_r_trx = 0 ∨ is_select = true) :
    ∃ (eng2 : innodb_engine_t) (p : Nat) (cd2 : innodb_conn_data_t),
      innodb_conn_init cb eng cookie is_select ib_lck_mode_t.IB_LOCK_X has_lock = some (eng2, p)
        ∧ conn_data_at eng2.conn_data cd1.addr = some cd2
        ∧ cd2.c_trx = cd1.c_trx ∧ cd2.c_crsr = cd1.c_crsr ∧ cd2.c_idx_crsr = cd1.c_idx_crsr := by
  cases hr : innodb_conn_init_registry cb eng cookie with
  | none => simp [hr] at hreg
  | some r =>
    obtain ⟨eng1, c⟩ := r
    simp only [hr, Option.map_some', Option.some.injEq] at hreg
    subst hreg
    obtain ⟨hat, _⟩ := innodb_conn_init_registry_at cb eng eng1 cookie c hr
    obtain ⟨hm, _⟩ := conn_data_at_some _ _ _ hat
    have haddr := (innodb_conn_init_trx_addr cb eng1.m_use_idx c eng1.log is_select
      ib_lck_mode_t.IB_LOCK_X).1
    refine ⟨_, _, _, innodb_conn_init_of_registry cb eng eng1 c cookie is_select _ has_lock hr,
      ?_, innodb_conn_init_trx_exclusive cb eng1.m_use_idx c eng1.log is_select hpath⟩
    have := conn_data_at_write_of_mem eng1.conn_data
      (innodb_conn_init_trx cb eng1.m_use_idx c eng1.log is_select ib_lck_mode_t.IB_LOCK_X).2.1
      ⟨c, hm, haddr.symm⟩
    rw [haddr] at this
    exact this

theorem innodb_conn_init_exclusive_frame_witness :
    (innodb_conn_init_registry cb_example registry_example 77).map Prod.snd
        = some { conn_data_zero 9000 77 with c_in_use := true }
      ∧ ∃ (eng2 : innodb_engine_t) (p : Nat) (cd2 : innodb_conn_data_t),
          innodb_conn_init cb_example registry_example 77 false ib_lck_mode_t.IB_LOCK_X true
              = some (eng2, p)
            ∧ conn_data_at eng2.conn_data 9000 = some cd2
            ∧ cd2.c_trx = 0 ∧ cd2.c_crsr = 0 ∧ cd2.c_idx_crsr = 0 :=
  ⟨rfl, innodb_conn_init_exclusive_frame cb_example registry_example 77 false true
    { conn_data_zero 9000 77 with c_in_use := true } rfl (Or.inl rfl)⟩

/-! ### innodb_conn_init: failure of the write path on first use -/

/-- C8 (as stated, refuted): a mutating `IB_LOCK_IX` request for the unseen
cookie 77, on a row store that opens the read path (transaction 7001, cursor
8002) and then refuses the write path, returns `NULL` with the read path gone:
the read cursor 8002 has been closed and `c_r_crsr` and `c_r_trx` are `NULL`. -/
theorem innodb_conn_init_first_write_failure_drops_read :
    (innodb_conn_init cb_write_fails registry_example 77 false ib_lck_mode_t.IB_LOCK_IX false).map
        (fun r => (r.2, (conn_data_at r.1.conn_data 9000).map
          (fun cd => (cd.c_in_use, cd.c_r_trx, cd.c_r_crsr, cd.c_crsr)), r.1.log))
      = some (0, some (false, 0, 0, 0),
          [ib_event.malloc 9000,
           ib_event.trx_begin 7001,
           ib_event.api_begin 7001 0 0 ib_lck_mode_t.IB_LOCK_IS ib_err_t.DB_SUCCESS 8002 0,
           ib_event.trx_begin 7003,
           ib_event.api_begin 7003 0 0 ib_lck_mode_t.IB_LOCK_IX (ib_err_t.DB_ERROR 1) 0 0,
           ib_event.cursor_close 0,
           ib_event.cursor_close 8002]) := by
  rfl

theorem innodb_conn_init_trx_first_write_failure (cb : ib_cb_t) (m : meta_use_idx_t)
    (cd : innodb_conn_data_t) (log : List ib_event) (lock_mode : ib_lck_mode_t)
    (h0 : cd.c_r_trx = 0) (hx : lock_mode ≠ ib_lck_mode_t.IB_LOCK_X)
    (hread : (cb.innodb_api_begin (log ++ [ib_event.trx_begin (cb.innodb_cb_trx_begin log)])
      (cb.innodb_cb_trx_begin log) cd.c_r_crsr cd.c_r_idx_crsr ib_lck_mode_t.IB_LOCK_IS).1
        = ib_err_t.DB_SUCCESS)
    (hcrsr : (cb.innodb_api_begin (log ++ [ib_event.trx_begin (cb.innodb_cb_trx_begin log)])
      (cb.innodb_cb_trx_begin log) cd.c_r_crsr cd.c_r_idx_crsr ib_lck_mode_t.IB_LOCK_IS).2.1 ≠ 0)
    (hfail : (innodb_conn_init_trx cb m cd log false lock_mode).1 = false) :
    ∃ (r_trx r_crsr r_idx trx crsr idx : Nat) (err : ib_err_t),
      r_crsr ≠ 0 ∧ err ≠ ib_err_t.DB_SUCCESS
        ∧ (innodb_conn_init_trx cb m cd log false lock_mode).2.2
            = log ++ [ib_event.trx_begin r_trx,
                ib_event.api_begin r_trx cd.c_r_crsr cd.c_r_idx_crsr ib_lck_mode_t.IB_LOCK_IS
                  ib_err_t.DB_SUCCESS r_crsr r_idx,
                ib_event.trx_begin trx,
                ib_event.api_begin trx cd.c_crsr cd.c_idx_crsr lock_mode err crsr idx,
                ib_event.cursor_close crsr,
                ib_event.cursor_close r_crsr]
        ∧ (innodb_conn_init_trx cb m cd log false lock_mode).2.1.c_in_use = false
        ∧ (innodb_conn_init_trx cb m cd log false lock_mode).2.1.c_crsr = 0
        ∧ (innodb_conn_init_trx cb m cd log false lock_mode).2.1.c_r_crsr = 0
        ∧ (innodb_conn_init_trx cb m cd log false lock_mode).2.1.c_r_trx = 0 := by
  simp only [innodb_conn_init_trx, h0, if_true, if_neg hx, hread, ne_eq, not_true_eq_false,
    if_false, Bool.not_false, List.append_assoc, List.singleton_append, List.cons_append,
    List.nil_append] at hfail ⊢
  split_ifs at hfail ⊢ with hw
  exact ⟨_, _, _, _, _, _, _, hcrsr, hw, rfl, rfl, rfl, rfl, rfl⟩

/-- C8 (amended): on first use (no read transaction yet) with a mutating,
non-exclusive request, when the read path has been opened (status `DB_SUCCESS`,
non-null read cursor) and the call then fails, the failure is that of opening
the write path, and `innodb_conn_init` returns `NULL` with `c_in_use` cleared,
the write cursor closed and `c_crsr` `NULL`, and the read path taken down as
well: the read cursor just obtained is closed and `c_r_crsr` and `c_r_trx` are
`NULL`. -/
theorem innodb_conn_init_first_write_failure (cb : ib_cb_t) (eng eng1 : innodb_engine_t)
    (cookie : Nat) (lock_mode : ib_lck_mode_t) (has_lock : Bool) (cd1 : innodb_conn_data_t)
    (hreg : innodb_conn_init_registry cb eng cookie = some (eng1, cd1))
    (h0 : cd1.c_r_trx = 0) (hx : lock_mode ≠ ib_lck_mode_t.IB_LOCK_X)
    (hread : (cb.innodb_api_begin
      (eng1.log ++ [ib_event.trx_begin (cb.innodb_cb_trx_begin eng1.log)])
      (cb.innodb_cb_trx_begin eng1.log) cd1.c_r_crsr cd1.c_r_idx_crsr ib_lck_mode_t.IB_LOCK_IS).1
        = ib_err_t.DB_SUCCESS)
    (hcrsr : (cb.innodb_api_begin
      (eng1.log ++ [ib_event.trx_begin (cb.innodb_cb_trx_begin eng1.log)])
      (cb.innodb_cb_trx_begin eng1.log) cd1.c_r_crsr cd1.c_r_idx_crsr ib_lck_mode_t.IB_LOCK_IS).2.1
        ≠ 0)
    (hfail : (innodb_conn_init_trx cb eng1.m_use_idx cd1 eng1.log false lock_mode).1 = false) :
    ∃ (eng2 : innodb_engine_t) (cd2 : innodb_conn_data_t)
      (r_trx r_crsr r_idx trx crsr idx : Nat) (err : ib_err_t),
      innodb_conn_init cb eng cookie false lock_mode has_lock = some (eng2, 0)
        ∧ r_crsr ≠ 0 ∧ err ≠ ib_err_t.DB_SUCCESS
        ∧ eng2.log
            = eng1.log ++ [ib_event.trx_begin r_trx,
                ib_event.api_begin r_trx cd1.c_r_crsr cd1.c_r_idx_crsr ib_lck_mode_t.IB_LOCK_IS
                  ib_err_t.DB_SUCCESS r_crsr r_idx,
                ib_event.trx_begin trx,
                ib_event.api_begin trx cd1.c_crsr cd1.c_idx_crsr lock_mode err crsr idx,
                ib_event.cursor_close crsr,
                ib_event.cursor_close r_crsr]
        ∧ conn_data_at eng2.conn_data cd1.addr = some cd2
        ∧ cd2.c_in_use = false ∧ cd2.c_crsr = 0 ∧ cd2.c_r_crsr = 0 ∧ cd2.c_r_trx = 0 := by
  obtain ⟨r_trx, r_crsr, r_idx, trx, crsr, idx, err, h1, h2, hlog, h3, h4, h5, h6⟩ :=
    innodb_conn_init_trx_first_write_failure cb eng1.m_use_idx cd1 eng1.log lock_mode h0 hx
      hread hcrsr hfail
  obtain ⟨hat, _⟩ := innodb_conn_init_registry_at cb eng eng1 cookie cd1 hreg
  obtain ⟨hm, _⟩ := conn_data_at_some _ _ _ hat
  have haddr := (innodb_conn_init_trx_addr cb eng1.m_use_idx cd1 eng1.log false lock_mode).1
  have hw := conn_data_at_write_of_mem eng1.conn_data
    (innodb_conn_init_trx cb eng1.m_use_idx cd1 eng1.log false lock_mode).2.1
    ⟨cd1, hm, haddr.symm⟩
  rw [haddr] at hw
  rw [innodb_conn_init_of_registry cb eng eng1 cd1 cookie false lock_mode has_lock hreg]
  simp only [hfail, Bool.false_eq_true, if_false]
  exact ⟨_, _, r_trx, r_crsr, r_idx, trx, crsr, idx, err, rfl, h1, h2, hlog, hw, h3, h4, h5, h6⟩

theorem innodb_conn_init_first_write_failure_witness :
    ∃ (eng1 : innodb_engine_t) (cd1 : innodb_conn_data_t),
      innodb_conn_init_registry cb_write_fails registry_example 77 = some (eng1, cd1)
        ∧ cd1.c_r_trx = 0
        ∧ (innodb_conn_init_trx cb_write_fails eng1.m_use_idx cd1 eng1.log false
            ib_lck_mode_t.IB_LOCK_IX).1 = false
        ∧ ∃ (eng2 : innodb_engine_t) (cd2 : innodb_conn_data_t)
            (r_trx r_crsr r_idx trx crsr idx : Nat) (err : ib_err_t),
            innodb_conn_init cb_write_fails registry_example 77 false ib_lck_mode_t.IB_LOCK_IX true
                = some (eng2, 0)
              ∧ r_crsr ≠ 0 ∧ err ≠ ib_err_t.DB_SUCCESS
              ∧ eng2.log
                  = eng1.log ++ [ib_event.trx_begin r_trx,
                      ib_event.api_begin r_trx cd1.c_r_crsr cd1.c_r_idx_crsr
                        ib_lck_mode_t.IB_LOCK_IS ib_err_t.DB_SUCCESS r_crsr r_idx,
                      ib_event.trx_begin trx,
                      ib_event.api_begin trx cd1.c_crsr cd1.c_idx_crsr ib_lck_mode_t.IB_LOCK_IX
                        err crsr idx,
                      ib_event.cursor_close crsr,
                      ib_event.cursor_close r_crsr]
              ∧ conn_data_at eng2.conn_data cd1.addr = some cd2
              ∧ cd2.c_in_use = false ∧ cd2.c_crsr = 0 ∧ cd2.c_r_crsr = 0 ∧ cd2.c_r_trx = 0 :=
  ⟨_, _, rfl, rfl, rfl,
    innodb_conn_init_first_write_failure cb_write_fails registry_example _ 77
      ib_lck_mode_t.IB_LOCK_IX true _ rfl rfl (by decide) rfl (by decide) rfl⟩

/-! ### innodb_conn_init: transactions on the failing returns -/

/-- C9 (the code at the failing inputs): a mutating `IB_LOCK_IX` request whose
write path cannot be opened returns `NULL` and (1) on first use, for the unseen
cookie 77, leaves the write transaction 7003 it began stored in `c_trx` and
drops the read transaction 7001 it began from `c_r_trx`, (2) on the idle
connection at 301 (read transaction 41 open, no write cursor), drops the write
transaction 7000 it began from `c_trx`; in both calls the log ends without any
`innodb_cb_trx_commit`. -/
theorem innodb_conn_init_write_failure_leaks_trx :
    (innodb_conn_init cb_write_fails registry_example 77 false ib_lck_mode_t.IB_LOCK_IX false).map
        (fun r => (r.2, (conn_data_at r.1.conn_data 9000).map
          (fun cd => (cd.c_in_use, cd.c_r_trx, cd.c_trx, cd.c_r_crsr, cd.c_crsr)), r.1.log))
      = some (0, some (false, 0, 7003, 0, 0),
          [ib_event.malloc 9000,
           ib_event.trx_begin 7001,
           ib_event.api_begin 7001 0 0 ib_lck_mode_t.IB_LOCK_IS ib_err_t.DB_SUCCESS 8002 0,
           ib_event.trx_begin 7003,
           ib_event.api_begin 7003 0 0 ib_lck_mode_t.IB_LOCK_IX (ib_err_t.DB_ERROR 1) 0 0,
           ib_event.cursor_close 0,
           ib_event.cursor_close 8002])
    ∧ (innodb_conn_init cb_write_fails registry_example 30 false ib_lck_mode_t.IB_LOCK_IX false).map
        (fun r => (r.2, (conn_data_at r.1.conn_data 301).map
          (fun cd => (cd.c_in_use, cd.c_r_trx, cd.c_trx, cd.c_r_crsr, cd.c_crsr)), r.1.log))
      = some (0, some (false, 41, 0, 43, 0),
          [ib_event.trx_begin 7000,
           ib_event.api_begin 7000 0 0 ib_lck_mode_t.IB_LOCK_IX (ib_err_t.DB_ERROR 1) 0 0,
           ib_event.cursor_close 0]) := by
  constructor <;> rfl

/-! ### innodb_conn_init: the registry step -/

theorem conn_data_removed_false_eq (eng : innodb_engine_t) (cd : innodb_conn_data_t) :
    conn_data_removed eng false cd = !conn_data_live eng cd := by
  cases hu : cd.c_in_use <;> cases h0 : (eng.cookie cd.c_cookie == 0)
    <;> cases h1 : (eng.cookie cd.c_cookie == cd.addr)
    <;> simp [conn_data_removed, conn_data_stale, conn_data_live, bne, hu, h0, h1]

theorem innodb_conn_init_recycle_eq (eng : innodb_engine_t)
    (hthd : ∀ cd ∈ eng.conn_data, thd_asserted cd)
    (hlen : (eng.conn_data.length : Int) ≤ INT_MAX) :
    innodb_conn_init_recycle eng
      = some { eng with
                 conn_data := conn_data_recycled eng
                 log := eng.log ++ conn_data_recycle_calls eng } := by
  unfold innodb_conn_init_recycle conn_data_recycled conn_data_recycle_calls
  by_cases hbig : eng.conn_data.length > 2048
  · have hbig' : 2048 < eng.conn_data.length := hbig
    simp only [hbig, hbig', if_true, innodb_conn_clean_eq eng false true hthd hlen,
      Option.map_some', conn_data_removed_false_eq, Bool.not_not, Bool.false_eq_true, false_and,
      if_false]
  · have hbig' : ¬ 2048 < eng.conn_data.length := hbig
    simp only [hbig, hbig', if_false, List.append_nil]

theorem conn_data_at_append_fresh (l : List innodb_conn_data_t) (z : innodb_conn_data_t)
    (hfresh : ∀ x ∈ l, x.addr ≠ z.addr) : conn_data_at (l ++ [z]) z.addr = some z := by
  induction l with
  | nil => simp [conn_data_at]
  | cons y l ih =>
    have hy : (y.addr == z.addr) = false := by
      simpa using hfresh y (List.mem_cons_self _ _)
    have := ih (fun x hx => hfresh x (List.mem_cons_of_mem _ hx))
    simpa [conn_data_at, List.find?_cons, hy] using this

theorem conn_data_write_append_fresh (l : List innodb_conn_data_t) (z z1 : innodb_conn_data_t)
    (hz : z.addr = z1.addr) (hfresh : ∀ x ∈ l, x.addr ≠ z1.addr) :
    conn_data_write (l ++ [z]) z1 = l ++ [z1] := by
  induction l with
  | nil => simp [conn_data_write, hz]
  | cons y l ih =>
    have hy : y.addr ≠ z1.addr := hfresh y (List.mem_cons_self _ _)
    have := ih (fun x hx => hfresh x (List.mem_cons_of_mem _ hx))
    simp only [conn_data_write, List.map_cons, List.cons_append, if_neg hy] at this ⊢
    rw [this]

/-- The registry step for a cookie bound to nothing. -/
theorem innodb_conn_init_registry_unbound (cb : ib_cb_t) (eng : innodb_engine_t) (cookie : Nat)
    (hthd : ∀ cd ∈ eng.conn_data, thd_asserted cd)
    (hlen : (eng.conn_data.length : Int) ≤ INT_MAX)
    (h0 : eng.cookie cookie = 0)
    (hfresh : malloc_fresh cb (conn_data_recycled eng)) :
    innodb_conn_init_registry cb eng cookie
      = some ({ eng with
                  conn_data := conn_data_recycled eng
                    ++ [{ conn_data_zero (cb.malloc (eng.log ++ conn_data_recycle_calls eng)) cookie
                          with c_in_use := true }]
                  cookie := fun c =>
                    if c = cookie then cb.malloc (eng.log ++ conn_data_recycle_calls eng)
                    else eng.cookie c
                  log := eng.log ++ conn_data_recycle_calls eng
                    ++ [ib_event.malloc (cb.malloc (eng.log ++ conn_data_recycle_calls eng))] },
              { conn_data_zero (cb.malloc (eng.log ++ conn_data_recycle_calls eng)) cookie
                with c_in_use := true }) := by
  obtain ⟨hp, hf⟩ := hfresh (eng.log ++ conn_data_recycle_calls eng)
  have hat := conn_data_at_append_fresh (conn_data_recycled eng)
    (conn_data_zero (cb.malloc (eng.log ++ conn_data_recycle_calls eng)) cookie) hf
  have hwr := conn_data_write_append_fresh (conn_data_recycled eng)
    (conn_data_zero (cb.malloc (eng.log ++ conn_data_recycle_calls eng)) cookie)
    { conn_data_zero (cb.malloc (eng.log ++ conn_data_recycle_calls eng)) cookie
      with c_in_use := true } rfl hf
  have hne : ¬ ((conn_data_recycled eng
      ++ [conn_data_zero (cb.malloc (eng.log ++ conn_data_recycle_calls eng)) cookie]).length = 0) := by
    simp
  simp only [innodb_conn_init_registry, innodb_conn_init_lookup, h0, ne_eq, not_true_eq_false,
    if_false, innodb_conn_init_recycle_eq eng hthd hlen, innodb_conn_init_alloc, if_neg hp,
    innodb_conn_init_mark, if_neg hne]
  have hat' : conn_data_at (conn_data_recycled eng
      ++ [conn_data_zero (cb.malloc (eng.log ++ conn_data_recycle_calls eng)) cookie])
      (cb.malloc (eng.log ++ conn_data_recycle_calls eng))
      = some (conn_data_zero (cb.malloc (eng.log ++ conn_data_recycle_calls eng)) cookie) := hat
  simp only [hat', hwr]

/-- The registry step for a cookie bound to an idle connection. -/
theorem innodb_conn_init_registry_bound (cb : ib_cb_t) (eng : innodb_engine_t) (cookie : Nat)
    (cd : innodb_conn_data_t) (hb : eng.cookie cookie ≠ 0)
    (hat : conn_data_at eng.conn_data (eng.cookie cookie) = some cd)
    (hidle : cd.c_in_use = false) :
    innodb_conn_init_registry cb eng cookie
      = some ({ eng with conn_data := conn_data_write eng.conn_data { cd with c_in_use := true } },
              { cd with c_in_use := true }) := by
  obtain ⟨hm, _⟩ := conn_data_at_some _ _ _ hat
  have hne : ¬ (eng.conn_data.length = 0) := by
    intro h
    rw [List.length_eq_zero] at h
    rw [h] at hm
    cases hm
  simp only [innodb_conn_init_registry, innodb_conn_init_lookup, hb, ne_eq, not_false_eq_true,
    if_true, hat, hidle, Bool.false_eq_true, if_false, innodb_conn_init_mark, if_neg hne]

theorem conn_data_write_addr (l : List innodb_conn_data_t) (cd : innodb_conn_data_t) :
    (conn_data_write l cd).map (fun x => x.addr) = l.map (fun x => x.addr) := by
  induction l with
  | nil => rfl
  | cons y l ih =>
    simp only [conn_data_write, List.map_cons, List.cons.injEq] at ih ⊢
    refine ⟨?_, ih⟩
    by_cases hy : y.addr = cd.addr
    · simp [hy]
    · simp [hy]

/-! ### The registry of 2049 connections -/

theorem registry_full_length : registry_full.conn_data.length = 2049 := by
  simp [registry_full]

theorem registry_full_thd : ∀ cd ∈ registry_full.conn_data, thd_asserted cd := by
  intro cd hcd h
  simp only [registry_full, List.mem_cons, List.mem_map, List.mem_range] at hcd
  rcases hcd with rfl | ⟨i, _, rfl⟩
  · exact absurd rfl h
  · exact absurd rfl h

theorem registry_full_int : (registry_full.conn_data.length : Int) ≤ INT_MAX := by
  rw [registry_full_length]
  decide

theorem registry_full_live :
    registry_full.conn_data.filter (conn_data_live registry_full)
      = (List.range 2048).map (fun i => conn_data_zero (i + 2) (i + 2)) := by
  have h1 : conn_data_live registry_full (conn_data_zero 1 1) = false := by decide
  have h2 : ∀ x ∈ (List.range 2048).map (fun i => conn_data_zero (i + 2) (i + 2)),
      conn_data_live registry_full x = true := by
    intro x hx
    simp only [List.mem_map, List.mem_range] at hx
    obtain ⟨i, hi, rfl⟩ := hx
    have hc : (2 ≤ i + 2 ∧ i + 2 ≤ 2049) := ⟨by omega, by omega⟩
    simp [conn_data_live, conn_data_zero, registry_full, hc]
  show List.filter _ (conn_data_zero 1 1 :: _) = _
  rw [List.filter_cons, h1]
  simp only [Bool.false_eq_true, if_false]
  exact List.filter_eq_self.mpr h2

theorem registry_full_recycled :
    conn_data_recycled registry_full
      = (List.range 2048).map (fun i => conn_data_zero (i + 2) (i + 2)) := by
  unfold conn_data_recycled
  rw [registry_full_length, registry_full_live]
  simp

theorem registry_full_fresh : malloc_fresh cb_example (conn_data_recycled registry_full) := by
  intro log
  rw [registry_full_recycled]
  refine ⟨by simp [cb_example], ?_⟩
  intro x hx
  simp only [List.mem_map, List.mem_range] at hx
  obtain ⟨i, hi, rfl⟩ := hx
  simp only [conn_data_zero, cb_example]
  omega

theorem registry_full_registry_step :
    ∃ (eng1 : innodb_engine_t) (cd1 : innodb_conn_data_t),
      innodb_conn_init_registry cb_example registry_full 5000 = some (eng1, cd1)
        ∧ eng1.conn_data.length = 2049 := by
  refine ⟨_, _, innodb_conn_init_registry_unbound cb_example registry_full 5000
    registry_full_thd registry_full_int (by decide) registry_full_fresh, ?_⟩
  simp [registry_full_recycled]

/-- C4 (as stated, refuted): for the cookie 5000, bound to nothing, on the
registry of 2049 connections of which the first is stale, the registry step of
`innodb_conn_init` links the new connection and leaves the list with 2049
entries: the length has not grown by one. -/
theorem innodb_conn_init_registry_length_not_grown :
    registry_full.cookie 5000 = 0
      ∧ registry_full.conn_data.length = 2049
      ∧ ∃ (eng1 : innodb_engine_t) (cd1 : innodb_conn_data_t),
          innodb_conn_init_registry cb_example registry_full 5000 = some (eng1, cd1)
            ∧ eng1.conn_data.length = 2049
            ∧ eng1.conn_data.length ≠ registry_full.conn_data.length + 1 := by
  obtain ⟨eng1, cd1, h, hl⟩ := registry_full_registry_step
  refine ⟨by decide, registry_full_length, eng1, cd1, h, hl, ?_⟩
  rw [hl, registry_full_length]
  decide

theorem registry_example_fresh (cb : ib_cb_t) (hm : ∀ log, 9000 ≤ cb.malloc log) :
    malloc_fresh cb (conn_data_recycled registry_example) := by
  intro log
  have h := hm log
  have hr : conn_data_recycled registry_example = registry_example.conn_data := by decide
  rw [hr]
  refine ⟨by omega, ?_⟩
  intro x hx
  simp only [registry_example, List.mem_cons, List.mem_singleton, List.not_mem_nil,
    or_false] at hx
  rcases hx with rfl | rfl | rfl | rfl | rfl <;> (simp only; omega)

/-- C4 (amended): in the registry step of `innodb_conn_init` (lines 378-402),
(1) a cookie bound to a connection that is not in use gets that same connection
back, marked in use, with the registry's list of objects, its length, the
cookie bindings and the log of calls unchanged (no allocation); (2) a cookie
bound to nothing gets a new connection, all zero but for `c_cookie` and the
in-use flag, linked as the last element and bound to the cookie: behind the
connections of the list as it was when it has at most 2048 entries, so that the
length grows by exactly one, and behind the live connections, in their order,
when it has more. -/
theorem innodb_conn_init_registry_step (cb : ib_cb_t) (eng : innodb_engine_t) (cookie : Nat)
    (hthd : ∀ cd ∈ eng.conn_data, thd_asserted cd)
    (hlen : (eng.conn_data.length : Int) ≤ INT_MAX) :
    (∀ cd : innodb_conn_data_t, eng.cookie cookie ≠ 0 →
        conn_data_at eng.conn_data (eng.cookie cookie) = some cd → cd.c_in_use = false →
        ∃ (eng1 : innodb_engine_t) (cd1 : innodb_conn_data_t),
          innodb_conn_init_registry cb eng cookie = some (eng1, cd1)
            ∧ cd1 = { cd with c_in_use := true }
            ∧ cd1.addr = eng.cookie cookie
            ∧ eng1.conn_data = conn_data_write eng.conn_data cd1
            ∧ eng1.conn_data.map (fun x => x.addr) = eng.conn_data.map (fun x => x.addr)
            ∧ eng1.conn_data.length = eng.conn_data.length
            ∧ eng1.cookie = eng.cookie
            ∧ eng1.log = eng.log
            ∧ conn_data_at eng1.conn_data (eng.cookie cookie) = some cd1
            ∧ cd1.c_in_use = true)
      ∧ (eng.cookie cookie = 0 → malloc_fresh cb (conn_data_recycled eng) →
        ∃ (eng1 : innodb_engine_t) (cd1 : innodb_conn_data_t),
          innodb_conn_init_registry cb eng cookie = some (eng1, cd1)
            ∧ cd1 = { conn_data_zero cd1.addr cookie with c_in_use := true }
            ∧ cd1.addr ≠ 0
            ∧ cd1.c_in_use = true
            ∧ eng1.cookie cookie = cd1.addr
            ∧ eng1.conn_data.getLast? = some cd1
            ∧ (eng.conn_data.length ≤ 2048 →
                eng1.conn_data = eng.conn_data ++ [cd1]
                  ∧ eng1.conn_data.length = eng.conn_data.length + 1)
            ∧ (2048 < eng.conn_data.length →
                eng1.conn_data
                  = eng.conn_data.filter
                      (fun x => x.c_in_use
                        || (eng.cookie x.c_cookie != 0 && eng.cookie x.c_cookie == x.addr))
                    ++ [cd1])) := by
  constructor
  · intro cd hb hat hidle
    obtain ⟨_, ha⟩ := conn_data_at_some _ _ _ hat
    have hreg := innodb_conn_init_registry_bound cb eng cookie cd hb hat hidle
    obtain ⟨hat1, huse⟩ := innodb_conn_init_registry_at cb eng _ cookie _ hreg
    refine ⟨_, _, hreg, rfl, ha, rfl, conn_data_write_addr _ _, ?_, rfl, rfl, ?_, rfl⟩
    · simp [conn_data_write]
    · have : ({ cd with c_in_use := true } : innodb_conn_data_t).addr = eng.cookie cookie := ha
      rw [← this]
      exact hat1
  · intro h0 hfresh
    have hreg := innodb_conn_init_registry_unbound cb eng cookie hthd hlen h0 hfresh
    refine ⟨_, _, hreg, rfl, (hfresh _).1, rfl, ?_, ?_, ?_, ?_⟩
    · simp [conn_data_zero]
    · simp
    · intro hsmall
      have hs : ¬ 2048 < eng.conn_data.length := by omega
      simp [conn_data_recycled, conn_data_recycle_calls, hs]
    · intro hbig
      simp only [conn_data_recycled, conn_data_recycle_calls, hbig, if_true]
      rfl

theorem innodb_conn_init_registry_step_witness :
    (∃ (eng1 : innodb_engine_t) (cd1 : innodb_conn_data_t),
        innodb_conn_init_registry cb_example registry_example 10 = some (eng1, cd1)
          ∧ cd1 = { addr := 100, c_cookie := 10, c_in_use := true, c_r_trx := 11, c_trx := 12,
                    c_r_crsr := 13, c_crsr := 14, c_r_idx_crsr := 15, c_idx_crsr := 16,
                    mysql_tbl := 0, thd := 0 }
          ∧ cd1.addr = registry_example.cookie 10
          ∧ eng1.conn_data = conn_data_write registry_example.conn_data cd1
          ∧ eng1.conn_data.map (fun x => x.addr)
              = registry_example.conn_data.map (fun x => x.addr)
          ∧ eng1.conn_data.length = registry_example.conn_data.length
          ∧ eng1.cookie = registry_example.cookie
          ∧ eng1.log = registry_example.log
          ∧ conn_data_at eng1.conn_data (registry_example.cookie 10) = some cd1
          ∧ cd1.c_in_use = true)
      ∧ (∃ (eng1 : innodb_engine_t) (cd1 : innodb_conn_data_t),
        innodb_conn_init_registry cb_example registry_example 77 = some (eng1, cd1)
          ∧ cd1 = { conn_data_zero cd1.addr 77 with c_in_use := true }
          ∧ cd1.addr ≠ 0
          ∧ cd1.c_in_use = true
          ∧ eng1.cookie 77 = cd1.addr
          ∧ eng1.conn_data.getLast? = some cd1
          ∧ (registry_example.conn_data.length ≤ 2048 →
              eng1.conn_data = registry_example.conn_data ++ [cd1]
                ∧ eng1.conn_data.length = registry_example.conn_data.length + 1)
          ∧ (2048 < registry_example.conn_data.length →
              eng1.conn_data
                = registry_example.conn_data.filter
                    (fun x => x.c_in_use
                      || (registry_example.cookie x.c_cookie != 0
                          && registry_example.cookie x.c_cookie == x.addr))
                  ++ [cd1])) :=
  ⟨(innodb_conn_init_registry_step cb_example registry_example 10 (by decide) (by decide)).1
      { addr := 100, c_cookie := 10, c_in_use := false, c_r_trx := 11, c_trx := 12,
        c_r_crsr := 13, c_crsr := 14, c_r_idx_crsr := 15, c_idx_crsr := 16,
        mysql_tbl := 0, thd := 0 } (by decide) rfl rfl,
    (innodb_conn_init_registry_step cb_example registry_example 77 (by decide) (by decide)).2 rfl
      (registry_example_fresh cb_example (fun log => by simp [cb_example]))⟩

/-! ### innodb_conn_init: recycling above 2048 connections -/

/-- C5 (as stated, refuted): on the registry of 2049 connections, one of which
is stale and not in use, the recycling that `innodb_conn_init` runs before it
allocates leaves 2048 connections linked: the count is at the mark of 2048, not
below it. -/
theorem innodb_conn_init_recycle_leaves_2048 :
    registry_full.conn_data.length = 2049
      ∧ (∃ cd ∈ registry_full.conn_data,
          cd.c_in_use = false ∧ registry_full.cookie cd.c_cookie = 0)
      ∧ ∃ eng1 : innodb_engine_t,
          innodb_conn_init_recycle registry_full = some eng1
            ∧ eng1.conn_data.length = 2048
            ∧ ¬ (eng1.conn_data.length < 2048) := by
  refine ⟨registry_full_length, ⟨conn_data_zero 1 1, ?_, rfl, by decide⟩, _,
    innodb_conn_init_recycle_eq registry_full registry_full_thd registry_full_int, ?_, ?_⟩
  · exact List.mem_cons_self _ _
  · simp [registry_full_recycled]
  · simp [registry_full_recycled]

/-- C5 (amended): for a cookie bound to nothing, the registry step of
`innodb_conn_init` recycles stale connections before it allocates exactly when
the list holds more than 2048.  Above 2048 the calls of the teardown of every
connection that is neither in use nor still bound to its cookie come first,
then the allocation; the new connection is linked behind the live ones, whose
number is at most the former length, smaller when a stale idle connection
exists, hence at most 2048 (not necessarily below 2048) for a list of 2049.
With 2048 connections or fewer the only call is the allocation and the new
connection is linked behind all the connections there were. -/
theorem innodb_conn_init_recycle_threshold (cb : ib_cb_t) (eng : innodb_engine_t) (cookie : Nat)
    (hthd : ∀ cd ∈ eng.conn_data, thd_asserted cd)
    (hlen : (eng.conn_data.length : Int) ≤ INT_MAX)
    (h0 : eng.cookie cookie = 0)
    (hfresh : malloc_fresh cb (conn_data_recycled eng)) :
    ∃ (eng1 : innodb_engine_t) (cd1 : innodb_conn_data_t),
      innodb_conn_init_registry cb eng cookie = some (eng1, cd1)
        ∧ (2048 < eng.conn_data.length →
            eng1.conn_data
                = eng.conn_data.filter
                    (fun x => x.c_in_use
                      || (eng.cookie x.c_cookie != 0 && eng.cookie x.c_cookie == x.addr))
                  ++ [cd1]
              ∧ eng1.log
                  = eng.log
                    ++ (eng.conn_data.filter
                          (fun x => !(x.c_in_use
                            || (eng.cookie x.c_cookie != 0
                                && eng.cookie x.c_cookie == x.addr)))).flatMap conn_data_calls
                    ++ [ib_event.malloc cd1.addr]
              ∧ eng1.conn_data.length ≤ eng.conn_data.length + 1
              ∧ ((∃ cd ∈ eng.conn_data, cd.c_in_use = false
                    ∧ (eng.cookie cd.c_cookie = 0 ∨ eng.cookie cd.c_cookie ≠ cd.addr)) →
                  eng1.conn_data.length - 1 < eng.conn_data.length
                    ∧ (eng.conn_data.length = 2049 → eng1.conn_data.length - 1 ≤ 2048)))
        ∧ (eng.conn_data.length ≤ 2048 →
            eng1.conn_data = eng.conn_data ++ [cd1]
              ∧ eng1.log = eng.log ++ [ib_event.malloc cd1.addr]) := by
  refine ⟨_, _, innodb_conn_init_registry_unbound cb eng cookie hthd hlen h0 hfresh, ?_, ?_⟩
  · intro hbig
    have hle : (eng.conn_data.filter (conn_data_live eng)).length ≤ eng.conn_data.length :=
      List.length_filter_le _ _
    refine ⟨?_, ?_, ?_, ?_⟩
    · simp only [conn_data_recycled, hbig, if_true]
      rfl
    · simp only [conn_data_recycle_calls, hbig, if_true]
      rfl
    · simp only [conn_data_recycled, hbig, if_true, List.length_append, List.length_singleton]
      omega
    · rintro ⟨cd, hcd, hidle, hstale⟩
      have hnl : conn_data_live eng cd = false := by
        rcases hstale with h | h
        · simp [conn_data_live, hidle, h]
        · simp [conn_data_live, hidle, h]
      have hlt : (eng.conn_data.filter (conn_data_live eng)).length < eng.conn_data.length := by
        apply lt_of_le_of_ne hle
        intro heq
        have hall := List.filter_length_eq_length.mp heq
        have := hall cd hcd
        rw [hnl] at this
        cases this
      simp only [conn_data_recycled, hbig, if_true, List.length_append, List.length_singleton]
      constructor
      · omega
      · intro h49
        omega
  · intro hsmall
    have hs : ¬ 2048 < eng.conn_data.length := by omega
    simp [conn_data_recycled, conn_data_recycle_calls, hs, conn_data_zero]

theorem innodb_conn_init_recycle_threshold_witness :
    (∀ cd ∈ registry_full.conn_data, thd_asserted cd)
      ∧ registry_full.cookie 5000 = 0
      ∧ 2048 < registry_full.conn_data.length
      ∧ ∃ (eng1 : innodb_engine_t) (cd1 : innodb_conn_data_t),
          innodb_conn_init_registry cb_example registry_full 5000 = some (eng1, cd1)
            ∧ eng1.conn_data
                = registry_full.conn_data.filter
                    (fun x => x.c_in_use
                      || (registry_full.cookie x.c_cookie != 0
                          && registry_full.cookie x.c_cookie == x.addr))
                  ++ [cd1]
            ∧ eng1.conn_data.length ≤ registry_full.conn_data.length + 1 := by
  obtain ⟨eng1, cd1, h1, h2, _⟩ :=
    innodb_conn_init_recycle_threshold cb_example registry_full 5000 registry_full_thd
      registry_full_int (by decide) registry_full_fresh
  have hbig : 2048 < registry_full.conn_data.length := by
    rw [registry_full_length]; decide
  exact ⟨registry_full_thd, by decide, hbig, eng1, cd1, h1, (h2 hbig).1, (h2 hbig).2.2.1⟩

/-! ### innodb_conn_init: read-only then mutating on one cookie -/

theorem conn_data_write_mem (l : List innodb_conn_data_t) (cd x : innodb_conn_data_t)
    (hx : x ∈ conn_data_write l cd) : x = cd ∨ x ∈ l := by
  simp only [conn_data_write, List.mem_map] at hx
  obtain ⟨y, hy, rfl⟩ := hx
  by_cases h : y.addr = cd.addr
  · left; simp [h]
  · right; simpa [h] using hy

theorem wrap_int_of_range (x : Int) (h1 : -2147483648 ≤ x) (h2 : x ≤ INT_MAX) :
    wrap_int x = x := by
  unfold INT_MAX at h2
  unfold wrap_int
  omega

theorem innodb_get_copy_loop_le (m_sep_len : Nat) (cols : List Nat) :
    ∀ c_value : Nat, c_value ≤ innodb_get_copy_loop m_sep_len cols c_value := by
  induction cols with
  | nil => intro c; simp [innodb_get_copy_loop]
  | cons m rest ih =>
    intro c
    by_cases hm : m = 0
    · simp only [innodb_get_copy_loop, hm, if_true]
      exact ih c
    · simp only [innodb_get_copy_loop, hm, if_false]
      have := ih (c + m + m_sep_len)
      omega

theorem innodb_get_loops (m_sep_len : Nat) (cols : List Nat) :
    ∀ c_value : Nat, (innodb_get_copy_loop m_sep_len cols c_value : Int) ≤ INT_MAX →
      innodb_get_total_len_loop m_sep_len cols (c_value : Int)
        = (innodb_get_copy_loop m_sep_len cols c_value : Int) := by
  induction cols with
  | nil => intro c _; simp [innodb_get_total_len_loop, innodb_get_copy_loop]
  | cons m rest ih =>
    intro c hc
    by_cases hm : m = 0
    · simp only [innodb_get_total_len_loop, innodb_get_copy_loop, hm, if_true] at hc ⊢
      exact ih c hc
    · simp only [innodb_get_total_len_loop, innodb_get_copy_loop, hm, if_false] at hc ⊢
      have hle := innodb_get_copy_loop_le m_sep_len rest (c + m + m_sep_len)
      have hle' : ((c + m + m_sep_len : Nat) : Int)
          ≤ (innodb_get_copy_loop m_sep_len rest (c + m + m_sep_len) : Int) := by
        exact_mod_cast hle
      push_cast at hle'
      have hc0 : (0 : Int) ≤ c := Int.natCast_nonneg _
      have hm0 : (0 : Int) ≤ m := Int.natCast_nonneg _
      have hs0 : (0 : Int) ≤ m_sep_len := Int.natCast_nonneg _
      rw [wrap_int_of_range ((m : Int) + (m_sep_len : Int)) (by linarith) (by linarith),
        wrap_int_of_range ((c : Int) + ((m : Int) + (m_sep_len : Int))) (by linarith)
          (by linarith)]
      have := ih (c + m + m_sep_len) hc
      push_cast at this
      rw [← this]
      congr 1
      ring

/-- As long as the bytes written fit an `int`, the length allocated for a
multi-column value is the number of bytes the copy loop writes less one
separator. -/
theorem innodb_get_total_len_eq (m_sep_len : Nat) (cols : List Nat) (value_len : Int)
    (hsep : (m_sep_len : Int) ≤ INT_MAX)
    (hfit : (innodb_get_copy_loop m_sep_len cols 0 : Int) ≤ INT_MAX) :
    innodb_get_total_len (some cols) m_sep_len value_len
      = (innodb_get_copy_loop m_sep_len cols 0 : Int) - (m_sep_len : Int) := by
  have h := innodb_get_loops m_sep_len cols 0 hfit
  simp only [innodb_get_total_len]
  push_cast at h
  rw [h]
  have h0 : (0 : Int) ≤ (innodb_get_copy_loop m_sep_len cols 0 : Int) := Int.natCast_nonneg _
  have hs0 : (0 : Int) ≤ m_sep_len := Int.natCast_nonneg _
  apply wrap_int_of_range
  · unfold INT_MAX at hsep
    linarith
  · linarith

/-- Beyond the range of `int` the sum wraps: two columns of 2^30 bytes with a
one-byte separator give `total_len = -2147483647`. -/
theorem innodb_get_total_len_wraps :
    innodb_get_total_len (some [1073741824, 1073741824]) 1 0 = -2147483647 := by
  decide

/-- C15 (the code at the failing inputs): with a separator of one byte, for the
two columns of 3 and 4 bytes `total_len` is 8 while the copy loop writes 9
bytes into the item's data area, and for two empty columns `total_len` is -1. -/
theorem innodb_get_copy_exceeds_total_len :
    innodb_get_total_len (some [3, 4]) 1 0 = 8
      ∧ innodb_get_copy_loop 1 [3, 4] 0 = 9
      ∧ (innodb_get_total_len (some [3, 4]) 1 0 < (innodb_get_copy_loop 1 [3, 4] 0 : Int))
      ∧ innodb_get_total_len (some [0, 0]) 1 0 = -1
      ∧ innodb_get_total_len (some [0, 0]) 1 0 < 0 := by
  refine ⟨by decide, by decide, by decide, by decide, by decide⟩

/-! ### innodb_conn_init: reattaching the write cursor -/

/-- C12 (as stated, refuted): on the idle connection at 600 (read transaction
71, write cursor 74, no write transaction), a mutating `IB_LOCK_IX` request on
a row store whose `innodb_cb_cursor_lock` fails begins transaction 7000,
rebinds cursor 74 and tries the lock, then closes the cursor: `NULL` is
returned, `c_crsr` is `NULL` and not 74 any more, and the secondary cursor 76 is
neither rebound nor locked. -/
theorem innodb_conn_init_reattach_lock_failure_drops_cursor :
    (conn_data_at registry_reused.conn_data (registry_reused.cookie 70)).map
        (fun cd => (cd.addr, cd.c_in_use, cd.c_r_trx, cd.c_trx, cd.c_crsr, cd.c_idx_crsr))
      = some (600, false, 71, 0, 74, 76)
    ∧ (innodb_conn_init cb_write_fails registry_reused 70 false ib_lck_mode_t.IB_LOCK_IX false).map
        (fun r => (r.2, (conn_data_at r.1.conn_data 600).map
          (fun cd => (cd.c_in_use, cd.c_r_trx, cd.c_trx, cd.c_crsr, cd.c_idx_crsr)), r.1.log))
      = some (0, some (false, 71, 0, 0, 76),
          [ib_event.trx_begin 7000,
           ib_event.cursor_new_trx 74 7000,
           ib_event.cursor_lock 74 ib_lck_mode_t.IB_LOCK_IX (ib_err_t.DB_ERROR 1),
           ib_event.cursor_close 74]) := by
  constructor <;> rfl

theorem innodb_conn_init_trx_reattach_write (cb : ib_cb_t) (m : meta_use_idx_t)
    (cd : innodb_conn_data_t) (log : List ib_event) (lock_mode : ib_lck_mode_t)
    (hr : cd.c_r_trx ≠ 0) (hc : cd.c_crsr ≠ 0) (ht : cd.c_trx = 0) :
    ∃ (err : ib_err_t) (tail : List ib_event),
      (innodb_conn_init_trx cb m cd log false lock_mode).2.2
          = log ++ [ib_event.trx_begin (cb.innodb_cb_trx_begin log),
              ib_event.cursor_new_trx cd.c_crsr (cb.innodb_cb_trx_begin log),
              ib_event.cursor_lock cd.c_crsr lock_mode err] ++ tail
        ∧ (err = ib_err_t.DB_SUCCESS →
            (innodb_conn_init_trx cb m cd log false lock_mode).1 = true
              ∧ (innodb_conn_init_trx cb m cd log false lock_mode).2.1
                  = { cd with c_trx := cb.innodb_cb_trx_begin log }
              ∧ (m = meta_use_idx_t.META_SECONDARY →
                  ∃ err2 : ib_err_t,
                    tail = [ib_event.cursor_new_trx cd.c_idx_crsr (cb.innodb_cb_trx_begin log),
                      ib_event.cursor_lock cd.c_idx_crsr lock_mode err2])
              ∧ (m ≠ meta_use_idx_t.META_SECONDARY → tail = []))
        ∧ (err ≠ ib_err_t.DB_SUCCESS →
            (innodb_conn_init_trx cb m cd log false lock_mode).1 = false
              ∧ (innodb_conn_init_trx cb m cd log false lock_mode).2.1
                  = { cd with c_crsr := 0, c_trx := 0, c_in_use := false }
              ∧ tail = [ib_event.cursor_close cd.c_crsr]) := by
  simp only [innodb_conn_init_trx, if_neg hr, if_neg hc, ht, Bool.not_false, if_true,
    List.append_assoc, List.singleton_append, List.cons_append, List.nil_append]
  split_ifs with h1 h2
  · exact ⟨_, [ib_event.cursor_close cd.c_crsr], rfl, fun h => absurd h h1,
      fun _ => ⟨rfl, rfl, rfl⟩⟩
  · have h1' := not_not.mp h1
    refine ⟨_, _, rfl, fun _ => ⟨rfl, rfl, fun _ => ⟨_, rfl⟩, fun h => absurd h2 h⟩,
      fun h => absurd h1' h⟩
  · have h1' := not_not.mp h1
    exact ⟨_, [], by simp, fun _ => ⟨rfl, rfl, fun h => absurd h h2, fun _ => rfl⟩,
      fun h => absurd h1' h⟩

/-- C12 (amended): in `innodb_conn_init`, for a mutating request on a
connection that has a read transaction, a non-null write cursor and no write
transaction, a new write transaction is begun, no cursor is opened, and the
calls on the write cursor are the rebind to the new transaction followed by the
lock at the requested mode.  When that lock succeeds the connection is
returned with `c_crsr` the same handle and `c_trx` the new transaction, and,
when the table is searched through a secondary index, the secondary write
cursor has been rebound and then locked at the requested mode.  When the lock
fails the write cursor is closed, `c_crsr` and `c_trx` are `NULL`, in-use is
cleared, `NULL` is returned and the secondary cursor is left alone. -/
theorem innodb_conn_init_reattach_write (cb : ib_cb_t) (eng eng1 : innodb_engine_t)
    (cookie : Nat) (lock_mode : ib_lck_mode_t) (has_lock : Bool) (cd1 : innodb_conn_data_t)
    (hreg : innodb_conn_init_registry cb eng cookie = some (eng1, cd1))
    (hr : cd1.c_r_trx ≠ 0) (hc : cd1.c_crsr ≠ 0) (ht : cd1.c_trx = 0) :
    ∃ (eng2 : innodb_engine_t) (p : Nat) (cd2 : innodb_conn_data_t) (err : ib_err_t)
      (tail : List ib_event),
      innodb_conn_init cb eng cookie false lock_mode has_lock = some (eng2, p)
        ∧ eng2.log
            = eng1.log ++ [ib_event.trx_begin (cb.innodb_cb_trx_begin eng1.log),
                ib_event.cursor_new_trx cd1.c_crsr (cb.innodb_cb_trx_begin eng1.log),
                ib_event.cursor_lock cd1.c_crsr lock_mode err] ++ tail
        ∧ conn_data_at eng2.conn_data cd1.addr = some cd2
        ∧ (err = ib_err_t.DB_SUCCESS →
            p = cd1.addr
              ∧ cd2 = { cd1 with c_trx := cb.innodb_cb_trx_begin eng1.log }
              ∧ cd2.c_crsr = cd1.c_crsr
              ∧ cd2.c_trx = cb.innodb_cb_trx_begin eng1.log
              ∧ (eng1.m_use_idx = meta_use_idx_t.META_SECONDARY →
                  ∃ err2 : ib_err_t,
                    tail = [ib_event.cursor_new_trx cd1.c_idx_crsr
                        (cb.innodb_cb_trx_begin eng1.log),
                      ib_event.cursor_lock cd1.c_idx_crsr lock_mode err2])
              ∧ (eng1.m_use_idx ≠ meta_use_idx_t.META_SECONDARY → tail = []))
        ∧ (err ≠ ib_err_t.DB_SUCCESS →
            p = 0
              ∧ cd2 = { cd1 with c_crsr := 0, c_trx := 0, c_in_use := false }
              ∧ tail = [ib_event.cursor_close cd1.c_crsr]) := by
  obtain ⟨err, tail, hlog, hok, hfail⟩ :=
    innodb_conn_init_trx_reattach_write cb eng1.m_use_idx cd1 eng1.log lock_mode hr hc ht
  obtain ⟨hat, _⟩ := innodb_conn_init_registry_at cb eng eng1 cookie cd1 hreg
  obtain ⟨hm, _⟩ := conn_data_at_some _ _ _ hat
  have haddr := (innodb_conn_init_trx_addr cb eng1.m_use_idx cd1 eng1.log false lock_mode).1
  have hw := conn_data_at_write_of_mem eng1.conn_data
    (innodb_conn_init_trx cb eng1.m_use_idx cd1 eng1.log false lock_mode).2.1
    ⟨cd1, hm, haddr.symm⟩
  rw [haddr] at hw
  have hcall := innodb_conn_init_of_registry cb eng eng1 cd1 cookie false lock_mode has_lock hreg
  generalize innodb_conn_init_trx cb eng1.m_use_idx cd1 eng1.log false lock_mode = R
    at hlog hok hfail haddr hw hcall
  refine ⟨_, _, R.2.1, err, tail, hcall, hlog, hw, ?_, ?_⟩
  · intro he
    obtain ⟨h1, h2, h3, h4⟩ := hok he
    refine ⟨?_, h2, ?_, ?_, h3, h4⟩
    · simp only [h1, if_true]
      exact haddr
    · rw [h2]
    · rw [h2]
  · intro he
    obtain ⟨h1, h2, h3⟩ := hfail he
    refine ⟨?_, h2, h3⟩
    simp only [h1, Bool.false_eq_true, if_false]

theorem innodb_conn_init_reattach_write_witness :
    ∃ (eng1 : innodb_engine_t) (cd1 : innodb_conn_data_t),
      innodb_conn_init_registry cb_example registry_reused 70 = some (eng1, cd1)
        ∧ cd1.c_r_trx ≠ 0 ∧ cd1.c_crsr ≠ 0 ∧ cd1.c_trx = 0
        ∧ ∃ (eng2 : innodb_engine_t) (p : Nat) (cd2 : innodb_conn_data_t) (err : ib_err_t)
            (tail : List ib_event),
            innodb_conn_init cb_example registry_reused 70 false ib_lck_mode_t.IB_LOCK_IX false
                = some (eng2, p)
              ∧ eng2.log
                  = eng1.log ++ [ib_event.trx_begin (cb_example.innodb_cb_trx_begin eng1.log),
                      ib_event.cursor_new_trx cd1.c_crsr (cb_example.innodb_cb_trx_begin eng1.log),
                      ib_event.cursor_lock cd1.c_crsr ib_lck_mode_t.IB_LOCK_IX err] ++ tail
              ∧ conn_data_at eng2.conn_data cd1.addr = some cd2
              ∧ (err = ib_err_t.DB_SUCCESS →
                  p = cd1.addr
                    ∧ cd2 = { cd1 with c_trx := cb_example.innodb_cb_trx_begin eng1.log }
                    ∧ cd2.c_crsr = cd1.c_crsr
                    ∧ cd2.c_trx = cb_example.innodb_cb_trx_begin eng1.log
                    ∧ (eng1.m_use_idx = meta_use_idx_t.META_SECONDARY →
                        ∃ err2 : ib_err_t,
                          tail = [ib_event.cursor_new_trx cd1.c_idx_crsr
                              (cb_example.innodb_cb_trx_begin eng1.log),
                            ib_event.cursor_lock cd1.c_idx_crsr ib_lck_mode_t.IB_LOCK_IX err2])
                    ∧ (eng1.m_use_idx ≠ meta_use_idx_t.META_SECONDARY → tail = []))
              ∧ (err ≠ ib_err_t.DB_SUCCESS →
                  p = 0
                    ∧ cd2 = { cd1 with c_crsr := 0, c_trx := 0, c_in_use := false }
                    ∧ tail = [ib_event.cursor_close cd1.c_crsr]) :=
  ⟨_, _, rfl, by decide, by decide, rfl,
    innodb_conn_init_reattach_write cb_example registry_reused _ 70 ib_lck_mode_t.IB_LOCK_IX
      false _ rfl (by decide) (by decide) rfl⟩

/-! ### innodb_conn_init: read-only request without a read transaction -/

/-- C13 (as stated, refuted): a read-only request at `IB_LOCK_IX`, as
`innodb_get` makes it, for cookie 60, bound to the idle connection at 500 whose
read cursor 63 and secondary read cursor 65 exist and whose read transaction is
`NULL`: transaction 7000 is begun and handed with both cursors to
`innodb_api_begin`, and the lock mode passed there is `IB_LOCK_IS`, not the
`IB_LOCK_IX` the caller requested; that is the only call the cursors are
given to. -/
theorem innodb_conn_init_select_reused_locks_intention_shared :
    (conn_data_at registry_reused.conn_data (registry_reused.cookie 60)).map
        (fun cd => (cd.addr, cd.c_in_use, cd.c_r_trx, cd.c_r_crsr, cd.c_r_idx_crsr))
      = some (500, false, 0, 63, 65)
    ∧ (innodb_conn_init cb_example registry_reused 60 true ib_lck_mode_t.IB_LOCK_IX false).map
        (fun r => (r.2, (conn_data_at r.1.conn_data 500).map
          (fun cd => (cd.c_in_use, cd.c_r_trx, cd.c_r_crsr, cd.c_r_idx_crsr)), r.1.log))
      = some (500, some (true, 7000, 63, 65),
          [ib_event.trx_begin 7000,
           ib_event.api_begin 7000 63 65 ib_lck_mode_t.IB_LOCK_IS ib_err_t.DB_SUCCESS 63 65]) := by
  constructor <;> rfl

/-- Lines 407-431 and 467 for a read-only request on a connection without a read
transaction: what `innodb_conn_init_trx` returns, by the status of
`innodb_api_begin`. -/
theorem innodb_conn_init_trx_select_first (cb : ib_cb_t) (m : meta_use_idx_t)
    (cd : innodb_conn_data_t) (log : List ib_event) (lock_mode : ib_lck_mode_t)
    (lk : ib_lck_mode_t) (r : ib_err_t × Nat × Nat)
    (hr : cd.c_r_trx = 0)
    (hlk : lk = if lock_mode = ib_lck_mode_t.IB_LOCK_X then ib_lck_mode_t.IB_LOCK_X
      else ib_lck_mode_t.IB_LOCK_IS)
    (hcall : r = cb.innodb_api_begin (log ++ [ib_event.trx_begin (cb.innodb_cb_trx_begin log)])
      (cb.innodb_cb_trx_begin log) cd.c_r_crsr cd.c_r_idx_crsr lk) :
    (r.1 = ib_err_t.DB_SUCCESS →
        innodb_conn_init_trx cb m cd log true lock_mode
          = (true,
             { cd with c_r_trx := cb.innodb_cb_trx_begin log, c_r_crsr := r.2.1,
                       c_r_idx_crsr := r.2.2 },
             log ++ [ib_event.trx_begin (cb.innodb_cb_trx_begin log),
               ib_event.api_begin (cb.innodb_cb_trx_begin log) cd.c_r_crsr cd.c_r_idx_crsr lk
                 r.1 r.2.1 r.2.2]))
      ∧ (r.1 ≠ ib_err_t.DB_SUCCESS →
        innodb_conn_init_trx cb m cd log true lock_mode
          = (false,
             { cd with c_r_trx := 0, c_r_crsr := 0, c_r_idx_crsr := r.2.2, c_in_use := false },
             log ++ [ib_event.trx_begin (cb.innodb_cb_trx_begin log),
               ib_event.api_begin (cb.innodb_cb_trx_begin log) cd.c_r_crsr cd.c_r_idx_crsr lk
                 r.1 r.2.1 r.2.2,
               ib_event.cursor_close r.2.1,
               ib_event.trx_commit (cb.innodb_cb_trx_begin log)])) := by
  subst hlk
  subst hcall
  constructor
  · intro hok
    simp only [innodb_conn_init_trx, hr, if_true, hok, ne_eq, not_true_eq_false, if_false,
      Bool.not_true, Bool.false_eq_true, List.append_assoc, List.singleton_append,
      List.cons_append, List.nil_append]
    split_ifs <;> rfl
  · intro hfail
    simp only [innodb_conn_init_trx, hr, if_true, hfail, ne_eq, not_false_eq_true,
      List.append_assoc, List.singleton_append, List.cons_append, List.nil_append]

/-- C13 (amended): in `innodb_conn_init`, for a read-only request on a
connection whose read transaction is `NULL` (its read cursor, and secondary
read cursor, still there from earlier use): a new read transaction is begun and
handed, with the existing read cursor and secondary read cursor, to
`innodb_api_begin`, and the lock mode passed is `IB_LOCK_X` when the caller
requested `IB_LOCK_X` and `IB_LOCK_IS` for every other requested mode.  When
`innodb_api_begin` succeeds these are all the calls: the connection is returned
with `c_r_trx` the new transaction and the two read cursors as
`innodb_api_begin` left them.  When it fails the read cursor is closed and the
transaction committed, `c_r_trx` and `c_r_crsr` are `NULL`, in-use is cleared and
`NULL` is returned. -/
theorem innodb_conn_init_select_without_read_trx (cb : ib_cb_t) (eng eng1 : innodb_engine_t)
    (cookie : Nat) (lock_mode : ib_lck_mode_t) (has_lock : Bool) (cd1 : innodb_conn_data_t)
    (hreg : innodb_conn_init_registry cb eng cookie = some (eng1, cd1))
    (hr : cd1.c_r_trx = 0) :
    ∃ (eng2 : innodb_engine_t) (p : Nat) (cd2 : innodb_conn_data_t) (lk : ib_lck_mode_t)
      (err : ib_err_t) (crsr idx_crsr : Nat) (tail : List ib_event),
      innodb_conn_init cb eng cookie true lock_mode has_lock = some (eng2, p)
        ∧ (lock_mode = ib_lck_mode_t.IB_LOCK_X → lk = ib_lck_mode_t.IB_LOCK_X)
        ∧ (lock_mode ≠ ib_lck_mode_t.IB_LOCK_X → lk = ib_lck_mode_t.IB_LOCK_IS)
        ∧ (err, crsr, idx_crsr)
            = cb.innodb_api_begin
                (eng1.log ++ [ib_event.trx_begin (cb.innodb_cb_trx_begin eng1.log)])
                (cb.innodb_cb_trx_begin eng1.log) cd1.c_r_crsr cd1.c_r_idx_crsr lk
        ∧ eng2.log
            = eng1.log ++ [ib_event.trx_begin (cb.innodb_cb_trx_begin eng1.log),
                ib_event.api_begin (cb.innodb_cb_trx_begin eng1.log) cd1.c_r_crsr
                  cd1.c_r_idx_crsr lk err crsr idx_crsr] ++ tail
        ∧ conn_data_at eng2.conn_data cd1.addr = some cd2
        ∧ (err = ib_err_t.DB_SUCCESS →
            p = cd1.addr
              ∧ cd2 = { cd1 with c_r_trx := cb.innodb_cb_trx_begin eng1.log, c_r_crsr := crsr,
                                 c_r_idx_crsr := idx_crsr }
              ∧ tail = [])
        ∧ (err ≠ ib_err_t.DB_SUCCESS →
            p = 0
              ∧ cd2 = { cd1 with c_r_trx := 0, c_r_crsr := 0, c_r_idx_crsr := idx_crsr,
                                 c_in_use := false }
              ∧ tail = [ib_event.cursor_close crsr,
                  ib_event.trx_commit (cb.innodb_cb_trx_begin eng1.log)]) := by
  obtain ⟨hok, hfail⟩ := innodb_conn_init_trx_select_first cb eng1.m_use_idx cd1 eng1.log
    lock_mode _ _ hr rfl rfl
  obtain ⟨hat, _⟩ := innodb_conn_init_registry_at cb eng eng1 cookie cd1 hreg
  obtain ⟨hm, _⟩ := conn_data_at_some _ _ _ hat
  have haddr := (innodb_conn_init_trx_addr cb eng1.m_use_idx cd1 eng1.log true lock_mode).1
  have hw := conn_data_at_write_of_mem eng1.conn_data
    (innodb_conn_init_trx cb eng1.m_use_idx cd1 eng1.log true lock_mode).2.1
    ⟨cd1, hm, haddr.symm⟩
  rw [haddr] at hw
  have hcall := innodb_conn_init_of_registry cb eng eng1 cd1 cookie true lock_mode has_lock hreg
  generalize innodb_conn_init_trx cb eng1.m_use_idx cd1 eng1.log true lock_mode = R
    at hok hfail haddr hw hcall
  generalize hlk : (if lock_mode = ib_lck_mode_t.IB_LOCK_X then ib_lck_mode_t.IB_LOCK_X
      else ib_lck_mode_t.IB_LOCK_IS) = lk at hok hfail
  generalize hres : cb.innodb_api_begin
      (eng1.log ++ [ib_event.trx_begin (cb.innodb_cb_trx_begin eng1.log)])
      (cb.innodb_cb_trx_begin eng1.log) cd1.c_r_crsr cd1.c_r_idx_crsr lk = res at hok hfail
  have hX : lock_mode = ib_lck_mode_t.IB_LOCK_X → lk = ib_lck_mode_t.IB_LOCK_X := by
    intro h
    rw [← hlk, if_pos h]
  have hIS : lock_mode ≠ ib_lck_mode_t.IB_LOCK_X → lk = ib_lck_mode_t.IB_LOCK_IS := by
    intro h
    rw [← hlk, if_neg h]
  by_cases he : res.1 = ib_err_t.DB_SUCCESS
  · have hR := hok he
    subst hR
    refine ⟨_, _, _, lk, res.1, res.2.1, res.2.2, [], hcall, hX, hIS, hres.symm, ?_, hw,
      fun _ => ⟨?_, rfl, rfl⟩, fun h => absurd he h⟩
    · simp
    · simp
  · have hR := hfail he
    subst hR
    refine ⟨_, _, _, lk, res.1, res.2.1, res.2.2,
      [ib_event.cursor_close res.2.1, ib_event.trx_commit (cb.innodb_cb_trx_begin eng1.log)],
      hcall, hX, hIS, hres.symm, ?_, hw, fun h => absurd h he, fun _ => ⟨?_, rfl, rfl⟩⟩
    · simp
    · simp

theorem innodb_conn_init_select_without_read_trx_witness :
    ∃ (eng1 : innodb_engine_t) (cd1 : innodb_conn_data_t),
      innodb_conn_init_registry cb_example registry_reused 60 = some (eng1, cd1)
        ∧ cd1.c_r_trx = 0 ∧ cd1.c_r_crsr ≠ 0
        ∧ ∃ (eng2 : innodb_engine_t) (p : Nat) (cd2 : innodb_conn_data_t) (lk : ib_lck_mode_t)
            (err : ib_err_t) (crsr idx_crsr : Nat) (tail : List ib_event),
            innodb_conn_init cb_example registry_reused 60 true ib_lck_mode_t.IB_LOCK_IX false
                = some (eng2, p)
              ∧ (ib_lck_mode_t.IB_LOCK_IX = ib_lck_mode_t.IB_LOCK_X
                  → lk = ib_lck_mode_t.IB_LOCK_X)
              ∧ (ib_lck_mode_t.IB_LOCK_IX ≠ ib_lck_mode_t.IB_LOCK_X
                  → lk = ib_lck_mode_t.IB_LOCK_IS)
              ∧ (err, crsr, idx_crsr)
                  = cb_example.innodb_api_begin
                      (eng1.log ++ [ib_event.trx_begin (cb_example.innodb_cb_trx_begin eng1.log)])
                      (cb_example.innodb_cb_trx_begin eng1.log) cd1.c_r_crsr cd1.c_r_idx_crsr lk
              ∧ eng2.log
                  = eng1.log ++ [ib_event.trx_begin (cb_example.innodb_cb_trx_begin eng1.log),
                      ib_event.api_begin (cb_example.innodb_cb_trx_begin eng1.log) cd1.c_r_crsr
                        cd1.c_r_idx_crsr lk err crsr idx_crsr] ++ tail
              ∧ conn_data_at eng2.conn_data cd1.addr = some cd2
              ∧ (err = ib_err_t.DB_SUCCESS →
                  p = cd1.addr
                    ∧ cd2 = { cd1 with c_r_trx := cb_example.innodb_cb_trx_begin eng1.log,
                                       c_r_crsr := crsr, c_r_idx_crsr := idx_crsr }
                    ∧ tail = [])
              ∧ (err ≠ ib_err_t.DB_SUCCESS →
                  p = 0
                    ∧ cd2 = { cd1 with c_r_trx := 0, c_r_crsr := 0, c_r_idx_crsr := idx_crsr,
                                       c_in_use := false }
                    ∧ tail = [ib_event.cursor_close crsr,
                        ib_event.trx_commit (cb_example.innodb_cb_trx_begin eng1.log)]) :=
  ⟨_, _, rfl, rfl, by decide,
    innodb_conn_init_select_without_read_trx cb_example registry_reused _ 60
      ib_lck_mode_t.IB_LOCK_IX false _ rfl rfl⟩

/-! ### innodb_flush: what the full clean does before the truncate -/

theorem conn_data_calls_mem (cd : innodb_conn_data_t) (hwf : thd_asserted cd) :
    (∀ h ∈ conn_data_cursors cd, ib_event.cursor_close h ∈ conn_data_calls cd)
      ∧ (∀ t ∈ conn_data_trxs cd, ib_event.trx_commit t ∈ conn_data_calls cd)
      ∧ ib_event.free cd.addr ∈ conn_data_calls cd := by
  refine ⟨?_, ?_, ?_⟩
  · intro h hh
    apply List.count_pos_iff.mp
    rw [count_close_calls cd hwf h]
    exact List.count_pos_iff.mpr hh
  · intro t ht
    apply List.count_pos_iff.mp
    rw [count_commit_calls cd hwf t]
    exact List.count_pos_iff.mpr ht
  · rw [conn_data_calls_eq cd hwf]
    simp

theorem conn_data_calls_quiet (cd : innodb_conn_data_t) (hwf : thd_asserted cd) :
    ∀ e ∈ conn_data_calls cd, ∀ err, e ≠ ib_event.api_flush err := by
  intro e he err heq
  rw [conn_data_calls_eq cd hwf, heq] at he
  simp only [List.mem_append, List.mem_singleton] at he
  rcases he with (((((((h | h) | h) | h) | h) | h) | h) | h) | h <;>
    first
      | (split_ifs at h <;> simp at h)
      | simp at h

theorem innodb_conn_init_trx_in_use (cb : ib_cb_t) (m : meta_use_idx_t)
    (cd : innodb_conn_data_t) (log : List ib_event) (is_select : Bool)
    (lock_mode : ib_lck_mode_t)
    (hok : (innodb_conn_init_trx cb m cd log is_select lock_mode).1 = true) :
    (innodb_conn_init_trx cb m cd log is_select lock_mode).2.1.c_in_use = cd.c_in_use := by
  simp only [innodb_conn_init_trx] at hok ⊢
  split_ifs at hok ⊢ <;> rfl

/-- A non-null pointer returned by `innodb_conn_init` points to a connection of
the registry that is marked in use. -/
theorem innodb_conn_init_returned (cb : ib_cb_t) (eng eng2 : innodb_engine_t)
    (cookie p : Nat) (is_select : Bool) (lock_mode : ib_lck_mode_t) (has_lock : Bool)
    (hcall : innodb_conn_init cb eng cookie is_select lock_mode has_lock = some (eng2, p))
    (hp : p ≠ 0) :
    ∃ cd : innodb_conn_data_t,
      conn_data_at eng2.conn_data p = some cd ∧ cd.c_in_use = true := by
  cases hr : innodb_conn_init_registry cb eng cookie with
  | none => simp [innodb_conn_init, hr] at hcall
  | some r =>
    obtain ⟨e1, c1⟩ := r
    rw [innodb_conn_init_of_registry cb eng e1 c1 cookie is_select lock_mode has_lock hr] at hcall
    simp only [Option.some.injEq, Prod.mk.injEq] at hcall
    obtain ⟨he, hpp⟩ := hcall
    have hok : (innodb_conn_init_trx cb e1.m_use_idx c1 e1.log is_select lock_mode).1 = true := by
      by_contra hne
      simp only [hne, Bool.false_eq_true, if_false] at hpp
      exact hp hpp.symm
    simp only [hok, if_true] at hpp
    obtain ⟨hat, huse⟩ := innodb_conn_init_registry_at cb eng e1 cookie c1 hr
    obtain ⟨hm, _⟩ := conn_data_at_some _ _ _ hat
    have haddr := (innodb_conn_init_trx_addr cb e1.m_use_idx c1 e1.log is_select lock_mode).1
    have hw := conn_data_at_write_of_mem e1.conn_data
      (innodb_conn_init_trx cb e1.m_use_idx c1 e1.log is_select lock_mode).2.1
      ⟨c1, hm, haddr.symm⟩
    have hin := innodb_conn_init_trx_in_use cb e1.m_use_idx c1 e1.log is_select lock_mode hok
    refine ⟨_, ?_, hin.trans huse⟩
    rw [← he, ← hpp]
    exact hw

theorem innodb_flush_of_acquire (cb : ib_cb_t) (api : ib_api_t) (eng eng1 : innodb_engine_t)
    (cookie p : Nat)
    (hroute : eng.m_set_option ≠ meta_set_option_t.META_CACHE)
    (hacq : innodb_flush_acquire cb api ( innodb_flush_default api eng).1 cookie = some (eng1, p))
    (hp : p ≠ 0)
    (hthd : ∀ cd ∈ eng1.conn_data, thd_asserted cd)
    (hlen : (eng1.conn_data.length : Int) ≤ INT_MAX) :
    innodb_flush cb api eng cookie
      = some ({ eng1 with
                  conn_data := []
                  cookie := fun c =>
                    if c ∈ eng1.conn_data.map (fun cd => cd.c_cookie) then 0 else eng1.cookie c
                  log := eng1.log ++ eng1.conn_data.flatMap conn_data_calls
                    ++ [ib_event.api_flush (api.innodb_api_flush
                          (eng1.log ++ eng1.conn_data.flatMap conn_data_calls))] },
              ENGINE_ERROR_CODE.ENGINE_SUCCESS) := by
  have hall : ∀ cd : innodb_conn_data_t, conn_data_removed eng1 true cd = true := fun _ => rfl
  simp only [innodb_flush, if_neg hroute, innodb_flush_store, hacq, if_neg hp,
    innodb_conn_clean_eq eng1 true true hthd hlen, hall, Bool.not_true, List.filter_false,
    List.filter_true, true_and]

/-- C14 (as stated, refuted): `innodb_flush` for cookie 60 on the two reused
connections acquires the connection at 500 with the transaction 7001 opened
under `IB_LOCK_X`; the full clean then closes the four cursors of that very
connection, commits 7001 and frees the object, does the same for the connection
at 600, and only then is the truncate issued: at that moment the registry is
empty and the flushing connection holds no transaction. -/
theorem innodb_flush_commits_exclusive_before_truncate :
    (innodb_flush cb_example api_example registry_reused 60).map
        (fun r => (r.2, r.1.conn_data, r.1.cookie 60, r.1.log))
      = some (ENGINE_ERROR_CODE.ENGINE_SUCCESS, [], 0,
          [ib_event.api_cursor_reset 500,
           ib_event.trx_begin 7001,
           ib_event.api_begin 7001 63 65 ib_lck_mode_t.IB_LOCK_X ib_err_t.DB_SUCCESS 63 65,
           ib_event.cursor_close 66,
           ib_event.cursor_close 65,
           ib_event.cursor_close 64,
           ib_event.cursor_close 63,
           ib_event.trx_commit 7001,
           ib_event.free 500,
           ib_event.cursor_close 76,
           ib_event.cursor_close 75,
           ib_event.cursor_close 74,
           ib_event.cursor_close 73,
           ib_event.trx_commit 71,
           ib_event.free 600,
           ib_event.api_flush (ib_err_t.DB_ERROR 7)]) := by
  rfl

/-- C14 (amended): in `innodb_flush` with non-cache-only routing and a
successful exclusive acquire, the full `innodb_conn_clean(clear_all = true)`
runs before the truncate and takes down every connection of the registry, the
flushing connection (which is in the registry and in use) included: every
non-null cursor is closed, every non-null transaction is committed, every
object is freed and its cookie unbound.  `innodb_api_flush` is the last call and
is made with the registry empty, so the truncate is not issued under a
transaction held by the flushing connection, and `ENGINE_SUCCESS` is returned. -/
theorem innodb_flush_clean_before_truncate (cb : ib_cb_t) (api : ib_api_t)
    (eng eng1 : innodb_engine_t) (cookie p : Nat)
    (hroute : eng.m_set_option ≠ meta_set_option_t.META_CACHE)
    (hacq : innodb_flush_acquire cb api ( innodb_flush_default api eng).1 cookie = some (eng1, p))
    (hp : p ≠ 0)
    (hthd : ∀ cd ∈ eng1.conn_data, thd_asserted cd)
    (hlen : (eng1.conn_data.length : Int) ≤ INT_MAX) :
    ∃ (eng2 : innodb_engine_t) (calls : List ib_event) (err : ib_err_t)
      (own : innodb_conn_data_t),
      innodb_flush cb api eng cookie = some (eng2, ENGINE_ERROR_CODE.ENGINE_SUCCESS)
        ∧ eng2.log = eng1.log ++ calls ++ [ib_event.api_flush err]
        ∧ (∀ e ∈ calls, ∀ err1, e ≠ ib_event.api_flush err1)
        ∧ eng2.conn_data = []
        ∧ conn_data_at eng1.conn_data p = some own
        ∧ own ∈ eng1.conn_data
        ∧ own.c_in_use = true
        ∧ ∀ cd ∈ eng1.conn_data,
            (∀ h ∈ conn_data_cursors cd, ib_event.cursor_close h ∈ calls)
              ∧ (∀ t ∈ conn_data_trxs cd, ib_event.trx_commit t ∈ calls)
              ∧ ib_event.free cd.addr ∈ calls
              ∧ eng2.cookie cd.c_cookie = 0 := by
  obtain ⟨own, hown, huse⟩ : ∃ own, conn_data_at eng1.conn_data p = some own
      ∧ own.c_in_use = true := by
    unfold innodb_flush_acquire at hacq
    cases hr : innodb_flush_reset api ( innodb_flush_default api eng).1 cookie with
    | none => simp [hr] at hacq
    | some eA =>
      simp only [hr] at hacq
      cases hc : innodb_conn_clean eA false true with
      | none => simp [hc] at hacq
      | some r =>
        obtain ⟨eB, n⟩ := r
        simp only [hc] at hacq
        exact innodb_conn_init_returned cb eB eng1 cookie p false _ true hacq hp
  refine ⟨_, eng1.conn_data.flatMap conn_data_calls, _, own,
    innodb_flush_of_acquire cb api eng eng1 cookie p hroute hacq hp hthd hlen,
    rfl, ?_, rfl, hown, (conn_data_at_some _ _ _ hown).1, huse, ?_⟩
  · intro e he err1
    obtain ⟨cd, hcd, hecd⟩ := List.mem_flatMap.mp he
    exact conn_data_calls_quiet cd (hthd cd hcd) e hecd err1
  · intro cd hcd
    obtain ⟨h1, h2, h3⟩ := conn_data_calls_mem cd (hthd cd hcd)
    refine ⟨fun h hh => List.mem_flatMap.mpr ⟨cd, hcd, h1 h hh⟩,
      fun t ht => List.mem_flatMap.mpr ⟨cd, hcd, h2 t ht⟩,
      List.mem_flatMap.mpr ⟨cd, hcd, h3⟩, ?_⟩
    have hmem : cd.c_cookie ∈ eng1.conn_data.map (fun cd => cd.c_cookie) :=
      List.mem_map.mpr ⟨cd, hcd, rfl⟩
    simp only [hmem, if_true]

theorem innodb_flush_clean_before_truncate_witness :
    ∃ eng1 : innodb_engine_t,
      innodb_flush_acquire cb_example api_example
          ( innodb_flush_default api_example registry_reused).1 60 = some (eng1, 500)
        ∧ ∃ (eng2 : innodb_engine_t) (calls : List ib_event) (err : ib_err_t)
            (own : innodb_conn_data_t),
            innodb_flush cb_example api_example registry_reused 60
                = some (eng2, ENGINE_ERROR_CODE.ENGINE_SUCCESS)
              ∧ eng2.log = eng1.log ++ calls ++ [ib_event.api_flush err]
              ∧ (∀ e ∈ calls, ∀ err1, e ≠ ib_event.api_flush err1)
              ∧ eng2.conn_data = []
              ∧ conn_data_at eng1.conn_data 500 = some own
              ∧ own ∈ eng1.conn_data
              ∧ own.c_in_use = true
              ∧ ∀ cd ∈ eng1.conn_data,
                  (∀ h ∈ conn_data_cursors cd, ib_event.cursor_close h ∈ calls)
                    ∧ (∀ t ∈ conn_data_trxs cd, ib_event.trx_commit t ∈ calls)
                    ∧ ib_event.free cd.addr ∈ calls
                    ∧ eng2.cookie cd.c_cookie = 0 :=
  ⟨_, rfl,
    innodb_flush_clean_before_truncate cb_example api_example registry_reused _ 60 500
      (by decide) rfl (by decide) (by decide) (by decide)⟩

/-! ### innodb_flush: that it returns, and what it returns -/

theorem log_quiet_refl (l : List ib_event) : log_quiet l l :=
  ⟨[], by simp, by simp⟩

theorem log_quiet_trans {l1 l2 l3 : List ib_event} (h12 : log_quiet l1 l2)
    (h23 : log_quiet l2 l3) : log_quiet l1 l3 := by
  obtain ⟨c1, rfl, hc1⟩ := h12
  obtain ⟨c2, rfl, hc2⟩ := h23
  refine ⟨c1 ++ c2, by simp, ?_⟩
  intro e he
  rcases List.mem_append.mp he with h | h
  · exact hc1 e h
  · exact hc2 e h

theorem log_quiet_count {l l1 : List ib_event} (h : log_quiet l l1) (err : ib_err_t) :
    l1.count (ib_event.api_flush err) = l.count (ib_event.api_flush err) := by
  obtain ⟨calls, rfl, hc⟩ := h
  rw [List.count_append]
  have : calls.count (ib_event.api_flush err) = 0 := by
    apply List.count_eq_zero_of_not_mem
    intro hm
    exact hc _ hm err rfl
  omega

theorem conn_data_at_of_mem (l : List innodb_conn_data_t) (p : Nat)
    (h : ∃ x ∈ l, x.addr = p) : ∃ y, conn_data_at l p = some y := by
  induction l with
  | nil => obtain ⟨x, hx, _⟩ := h; cases hx
  | cons y l ih =>
    by_cases hy : y.addr = p
    · exact ⟨y, by simp [conn_data_at, hy]⟩
    · have hy' : (y.addr == p) = false := by simpa using hy
      obtain ⟨x, hx, hxa⟩ := h
      have hxl : x ∈ l := by
        rcases List.mem_cons.mp hx with rfl | hxl
        · exact absurd hxa hy
        · exact hxl
      obtain ⟨z, hz⟩ := ih ⟨x, hxl, hxa⟩
      exact ⟨z, by simpa [conn_data_at, List.find?_cons, hy'] using hz⟩

theorem conn_data_at_filter (l : List innodb_conn_data_t) (p : Nat) (x : innodb_conn_data_t)
    (q : innodb_conn_data_t → Bool) (h : conn_data_at l p = some x) (hq : q x = true) :
    conn_data_at (l.filter q) p = some x := by
  induction l with
  | nil => simp [conn_data_at] at h
  | cons y l ih =>
    by_cases hy : y.addr = p
    · have hy' : (y.addr == p) = true := by simpa using hy
      simp only [conn_data_at, List.find?_cons, hy', Option.some.injEq] at h
      subst h
      simp [conn_data_at, List.filter_cons, hq, hy']
    · have hy' : (y.addr == p) = false := by simpa using hy
      simp only [conn_data_at, List.find?_cons, hy'] at h
      have := ih h
      by_cases hqy : q y = true
      · simpa [conn_data_at, List.filter_cons, hqy, List.find?_cons, hy'] using this
      · simpa [conn_data_at, List.filter_cons, hqy] using this

theorem innodb_conn_init_trx_post (cb : ib_cb_t) (m : meta_use_idx_t)
    (cd : innodb_conn_data_t) (log : List ib_event) (is_select : Bool)
    (lock_mode : ib_lck_mode_t) :
    (innodb_conn_init_trx cb m cd log is_select lock_mode).2.1.mysql_tbl = cd.mysql_tbl
      ∧ (innodb_conn_init_trx cb m cd log is_select lock_mode).2.1.thd = cd.thd
      ∧ log_quiet log (innodb_conn_init_trx cb m cd log is_select lock_mode).2.2 := by
  simp only [innodb_conn_init_trx, log_quiet, List.append_assoc, List.singleton_append,
    List.cons_append, List.nil_append]
  split_ifs <;>
    first
      | (refine ⟨rfl, rfl, _, rfl, ?_⟩; simp)
      | (refine ⟨rfl, rfl, [], ?_, ?_⟩ <;> simp)

theorem innodb_conn_clean_post (eng : innodb_engine_t) (clear_all has_lock : Bool)
    (hthd : ∀ cd ∈ eng.conn_data, thd_asserted cd)
    (hlen : (eng.conn_data.length : Int) ≤ INT_MAX) :
    ∃ (e : innodb_engine_t) (n : Int),
      innodb_conn_clean eng clear_all has_lock = some (e, n)
        ∧ e.conn_data = eng.conn_data.filter (fun cd => !conn_data_removed eng clear_all cd)
        ∧ (clear_all = false → e.cookie = eng.cookie)
        ∧ e.m_set_option = eng.m_set_option
        ∧ log_quiet eng.log e.log := by
  refine ⟨_, _, innodb_conn_clean_eq eng clear_all has_lock hthd hlen, rfl, ?_, rfl, _, rfl, ?_⟩
  · intro hc
    funext c
    simp [hc]
  · intro e he err
    obtain ⟨cd, hcd, hecd⟩ := List.mem_flatMap.mp he
    exact conn_data_calls_quiet cd (hthd cd (List.mem_filter.mp hcd).1) e hecd err

theorem innodb_conn_init_lookup_total (cb : ib_cb_t) (eng : innodb_engine_t) (cookie : Nat)
    (hthd : ∀ cd ∈ eng.conn_data, thd_asserted cd)
    (hlen : (eng.conn_data.length : Int) ≤ INT_MAX)
    (hmalloc : ∀ l, cb.malloc l ≠ 0)
    (hbound : eng.cookie cookie ≠ 0 →
      ∃ cd, conn_data_at eng.conn_data (eng.cookie cookie) = some cd ∧ cd.c_in_use = false) :
    ∃ (e0 : innodb_engine_t) (q : Nat),
      innodb_conn_init_lookup cb eng cookie = some (e0, q)
        ∧ (∃ x ∈ e0.conn_data, x.addr = q)
        ∧ (∀ cd ∈ e0.conn_data, thd_asserted cd)
        ∧ e0.conn_data.length ≤ eng.conn_data.length + 1
        ∧ e0.m_use_idx = eng.m_use_idx
        ∧ log_quiet eng.log e0.log := by
  by_cases hb : eng.cookie cookie = 0
  · have hp := hmalloc (eng.log ++ conn_data_recycle_calls eng)
    have hsub : ∀ x ∈ conn_data_recycled eng, x ∈ eng.conn_data := by
      intro x hx
      unfold conn_data_recycled at hx
      split_ifs at hx
      · exact (List.mem_filter.mp hx).1
      · exact hx
    have hle : (conn_data_recycled eng).length ≤ eng.conn_data.length := by
      unfold conn_data_recycled
      split_ifs
      · exact List.length_filter_le _ _
      · exact le_refl _
    have hlook : innodb_conn_init_lookup cb eng cookie
        = some ({ eng with
                    conn_data := conn_data_recycled eng
                      ++ [conn_data_zero (cb.malloc (eng.log ++ conn_data_recycle_calls eng)) cookie]
                    cookie := fun c =>
                      if c = cookie then cb.malloc (eng.log ++ conn_data_recycle_calls eng)
                      else eng.cookie c
                    log := eng.log ++ conn_data_recycle_calls eng
                      ++ [ib_event.malloc (cb.malloc (eng.log ++ conn_data_recycle_calls eng))] },
                cb.malloc (eng.log ++ conn_data_recycle_calls eng)) := by
      simp only [innodb_conn_init_lookup, hb, ne_eq, not_true_eq_false, if_false,
        innodb_conn_init_recycle_eq eng hthd hlen, innodb_conn_init_alloc, if_neg hp]
    refine ⟨_, _, hlook,
      ⟨conn_data_zero (cb.malloc (eng.log ++ conn_data_recycle_calls eng)) cookie, ?_, rfl⟩,
      ?_, ?_, ?_, ?_⟩
    · simp
    · intro cd hcd
      rcases List.mem_append.mp hcd with h | h
      · exact hthd cd (hsub cd h)
      · rw [List.mem_singleton] at h
        subst h
        intro h
        exact absurd rfl h
    · simp only [List.length_append, List.length_singleton]
      omega
    · rfl
    · refine ⟨conn_data_recycle_calls eng
        ++ [ib_event.malloc (cb.malloc (eng.log ++ conn_data_recycle_calls eng))], by simp, ?_⟩
      intro e he err
      rcases List.mem_append.mp he with h | h
      · unfold conn_data_recycle_calls at h
        split_ifs at h
        · obtain ⟨cd, hcd, hecd⟩ := List.mem_flatMap.mp h
          exact conn_data_calls_quiet cd (hthd cd (List.mem_filter.mp hcd).1) e hecd err
        · cases h
      · rw [List.mem_singleton] at h
        subst h
        intro h
        cases h
  · obtain ⟨cd, hat, hidle⟩ := hbound hb
    obtain ⟨hm, ha⟩ := conn_data_at_some _ _ _ hat
    refine ⟨eng, eng.cookie cookie, ?_, ⟨cd, hm, ha⟩, hthd, by omega, rfl, log_quiet_refl _⟩
    simp only [innodb_conn_init_lookup, hb, ne_eq, not_false_eq_true, if_true, hat, hidle,
      Bool.false_eq_true, if_false]

/-- When its assertions hold on entry `innodb_conn_init` returns, with the
assertion on `thd` still true of every connection, at most one connection more
and no truncate among its calls. -/
theorem innodb_conn_init_total (cb : ib_cb_t) (eng : innodb_engine_t) (cookie : Nat)
    (is_select : Bool) (lock_mode : ib_lck_mode_t) (has_lock : Bool)
    (hthd : ∀ cd ∈ eng.conn_data, thd_asserted cd)
    (hlen : (eng.conn_data.length : Int) ≤ INT_MAX)
    (hmalloc : ∀ l, cb.malloc l ≠ 0)
    (hbound : eng.cookie cookie ≠ 0 →
      ∃ cd, conn_data_at eng.conn_data (eng.cookie cookie) = some cd ∧ cd.c_in_use = false) :
    ∃ (e2 : innodb_engine_t) (p : Nat),
      innodb_conn_init cb eng cookie is_select lock_mode has_lock = some (e2, p)
        ∧ (∀ cd ∈ e2.conn_data, thd_asserted cd)
        ∧ e2.conn_data.length ≤ eng.conn_data.length + 1
        ∧ log_quiet eng.log e2.log := by
  obtain ⟨e0, q, hlook, hmem, hthd0, hlen0, _, hq0⟩ :=
    innodb_conn_init_lookup_total cb eng cookie hthd hlen hmalloc hbound
  obtain ⟨y, hy⟩ := conn_data_at_of_mem e0.conn_data q hmem
  obtain ⟨hym, _⟩ := conn_data_at_some _ _ _ hy
  have hne : ¬ (e0.conn_data.length = 0) := by
    intro h
    rw [List.length_eq_zero] at h
    rw [h] at hym
    cases hym
  have hreg : innodb_conn_init_registry cb eng cookie
      = some ({ e0 with conn_data := conn_data_write e0.conn_data { y with c_in_use := true } },
          { y with c_in_use := true }) := by
    simp only [innodb_conn_init_registry, hlook, innodb_conn_init_mark, if_neg hne, hy]
  have hcall := innodb_conn_init_of_registry cb eng _ _ cookie is_select lock_mode has_lock hreg
  obtain ⟨htbl, hthdf, hq⟩ := innodb_conn_init_trx_post cb e0.m_use_idx { y with c_in_use := true }
    e0.log is_select lock_mode
  refine ⟨_, _, hcall, ?_, ?_, log_quiet_trans hq0 hq⟩
  · intro cd hcd
    have hy_ok : thd_asserted y := hthd0 y hym
    rcases conn_data_write_mem _ _ _ hcd with h | h
    · rw [h]
      intro h1 h2
      rw [htbl] at h1
      rw [hthdf] at h2
      exact hy_ok h1 h2
    · rcases conn_data_write_mem _ _ _ h with h' | h'
      · rw [h']
        exact hy_ok
      · exact hthd0 cd h'
  · simp only [conn_data_write, List.length_map]
    exact hlen0

theorem innodb_flush_reset_total (api : ib_api_t) (eng : innodb_engine_t) (cookie : Nat)
    (hthd : ∀ cd ∈ eng.conn_data, thd_asserted cd)
    (hbound : eng.cookie cookie ≠ 0 →
      ∃ cd, conn_data_at eng.conn_data (eng.cookie cookie) = some cd ∧ cd.c_cookie = cookie)
    (hreset : ∀ l cd, (api.innodb_api_cursor_reset l cd).c_in_use = false
      ∧ (api.innodb_api_cursor_reset l cd).c_cookie = cd.c_cookie
      ∧ (thd_asserted cd → thd_asserted (api.innodb_api_cursor_reset l cd))) :
    ∃ eA : innodb_engine_t,
      innodb_flush_reset api eng cookie = some eA
        ∧ (∀ cd ∈ eA.conn_data, thd_asserted cd)
        ∧ eA.conn_data.length = eng.conn_data.length
        ∧ eA.cookie = eng.cookie
        ∧ log_quiet eng.log eA.log
        ∧ (eng.cookie cookie ≠ 0 →
            ∃ cd1, conn_data_at eA.conn_data (eng.cookie cookie) = some cd1
              ∧ cd1.c_in_use = false ∧ cd1.c_cookie = cookie
              ∧ cd1.addr = eng.cookie cookie) := by
  by_cases hb : eng.cookie cookie = 0
  · refine ⟨eng, ?_, hthd, rfl, rfl, log_quiet_refl _, fun h => absurd hb h⟩
    simp only [innodb_flush_reset, hb, ne_eq, not_true_eq_false, if_false]
  · obtain ⟨cd, hat, hck⟩ := hbound hb
    obtain ⟨hm, ha⟩ := conn_data_at_some _ _ _ hat
    obtain ⟨h1, h2, h3⟩ := hreset eng.log cd
    have hres : innodb_flush_reset api eng cookie
        = some { eng with
                   conn_data := conn_data_write eng.conn_data
                     { api.innodb_api_cursor_reset eng.log cd with addr := cd.addr }
                   log := eng.log ++ [ib_event.api_cursor_reset (eng.cookie cookie)] } := by
      simp only [innodb_flush_reset, hb, ne_eq, not_false_eq_true, if_true, hat]
    have hat1 := conn_data_at_write_of_mem eng.conn_data
      { api.innodb_api_cursor_reset eng.log cd with addr := cd.addr } ⟨cd, hm, rfl⟩
    refine ⟨_, hres, ?_, ?_, rfl, ⟨[ib_event.api_cursor_reset (eng.cookie cookie)], rfl, ?_⟩,
      fun _ => ⟨{ api.innodb_api_cursor_reset eng.log cd with addr := cd.addr },
        ?_, h1, h2.trans hck, ha⟩⟩
    · intro x hx
      rcases conn_data_write_mem _ _ _ hx with h | h
      · rw [h]
        exact h3 (hthd cd hm)
      · exact hthd x h
    · simp [conn_data_write]
    · intro e he err
      rw [List.mem_singleton] at he
      subst he
      intro h
      cases h
    · rw [← ha]
      exact hat1

theorem innodb_flush_acquire_total (cb : ib_cb_t) (api : ib_api_t) (eng : innodb_engine_t)
    (cookie : Nat)
    (hthd : ∀ cd ∈ eng.conn_data, thd_asserted cd)
    (hlen : (eng.conn_data.length : Int) < INT_MAX)
    (hmalloc : ∀ l, cb.malloc l ≠ 0)
    (hbound : eng.cookie cookie ≠ 0 →
      ∃ cd, conn_data_at eng.conn_data (eng.cookie cookie) = some cd ∧ cd.c_cookie = cookie)
    (hreset : ∀ l cd, (api.innodb_api_cursor_reset l cd).c_in_use = false
      ∧ (api.innodb_api_cursor_reset l cd).c_cookie = cd.c_cookie
      ∧ (thd_asserted cd → thd_asserted (api.innodb_api_cursor_reset l cd))) :
    ∃ (e1 : innodb_engine_t) (p : Nat),
      innodb_flush_acquire cb api eng cookie = some (e1, p)
        ∧ (∀ cd ∈ e1.conn_data, thd_asserted cd)
        ∧ (e1.conn_data.length : Int) ≤ INT_MAX
        ∧ log_quiet eng.log e1.log := by
  obtain ⟨eA, hres, hthdA, hlenA, hckA, hqA, hatA⟩ :=
    innodb_flush_reset_total api eng cookie hthd hbound hreset
  have hlenA' : (eA.conn_data.length : Int) ≤ INT_MAX := by
    rw [hlenA]; exact le_of_lt hlen
  obtain ⟨eB, n, hclean, hlistB, hckB, _, hqB⟩ :=
    innodb_conn_clean_post eA false true hthdA hlenA'
  have hckB' : eB.cookie = eng.cookie := (hckB rfl).trans hckA
  have hthdB : ∀ cd ∈ eB.conn_data, thd_asserted cd := by
    intro cd hcd
    rw [hlistB] at hcd
    exact hthdA cd (List.mem_filter.mp hcd).1
  have hleB : eB.conn_data.length ≤ eng.conn_data.length := by
    rw [hlistB, ← hlenA]
    exact List.length_filter_le _ _
  have hlenB : (eB.conn_data.length : Int) ≤ INT_MAX := by
    have : (eB.conn_data.length : Int) ≤ (eng.conn_data.length : Int) := by exact_mod_cast hleB
    linarith
  have hboundB : eB.cookie cookie ≠ 0 →
      ∃ cd, conn_data_at eB.conn_data (eB.cookie cookie) = some cd ∧ cd.c_in_use = false := by
    rw [hckB']
    intro hb
    obtain ⟨cd1, hat1, hidle, hck1, haddr1⟩ := hatA hb
    refine ⟨cd1, ?_, hidle⟩
    rw [hlistB]
    apply conn_data_at_filter _ _ _ _ hat1
    have hbind : eA.cookie cd1.c_cookie = cd1.addr := by
      rw [hckA, hck1, haddr1]
    have hne : cd1.addr ≠ 0 := by rw [haddr1]; exact hb
    simp [conn_data_removed, conn_data_stale, hidle, hbind, hne]
  obtain ⟨e2, p, hcall, hthd2, hlen2, hq2⟩ :=
    innodb_conn_init_total cb eB cookie false ib_lck_mode_t.IB_LOCK_X true hthdB hlenB hmalloc
      hboundB
  refine ⟨e2, p, ?_, hthd2, ?_, log_quiet_trans hqA (log_quiet_trans hqB hq2)⟩
  · simp only [innodb_flush_acquire, hres, hclean, hcall]
  · have h1 : (e2.conn_data.length : Int) ≤ (eB.conn_data.length : Int) + 1 := by
      exact_mod_cast hlen2
    have h2 : (eB.conn_data.length : Int) ≤ (eng.conn_data.length : Int) := by
      exact_mod_cast hleB
    linarith

theorem innodb_flush_default_frame (api : ib_api_t) (eng : innodb_engine_t) :
    ( innodb_flush_default api eng).1.conn_data = eng.conn_data
      ∧ ( innodb_flush_default api eng).1.cookie = eng.cookie
      ∧ log_quiet eng.log ( innodb_flush_default api eng).1.log := by
  unfold innodb_flush_default
  split_ifs
  · refine ⟨rfl, rfl, [ib_event.default_flush (api.default_engine_flush eng.log)], rfl, ?_⟩
    intro e he err
    rw [List.mem_singleton] at he
    subst he
    intro h
    cases h
  · exact ⟨rfl, rfl, log_quiet_refl _⟩

/-- C11: when the routing is not cache-only, `innodb_flush` returns, and what it
returns is `ENGINE_SUCCESS` on each of its paths: when the exclusive acquire
`innodb_conn_init(.., IB_LOCK_X, ..)` gives NULL the engine is left as the
acquire left it and no `innodb_api_flush` call has been added to the log; when
the acquire succeeds the last call is `innodb_api_flush`, and whatever error
code it answers is only recorded in the log, the status handed back being
`ENGINE_SUCCESS` all the same.  When the routing is cache-only the status is the
one the default engine's flush answered, and the registry list and the cookie
bindings are those of the start.  The hypotheses are the assertions of the code
(a connection with a MySQL table has a session, the cookie is bound to a
connection of the registry carrying that cookie), a registry shorter than
`INT_MAX`, an allocator that does not fail and an `innodb_api_cursor_reset` that
releases the connection it is given. -/
theorem innodb_flush_returns_success (cb : ib_cb_t) (api : ib_api_t) (eng : innodb_engine_t)
    (cookie : Nat)
    (hthd : ∀ cd ∈ eng.conn_data, thd_asserted cd)
    (hlen : (eng.conn_data.length : Int) < INT_MAX)
    (hmalloc : ∀ l, cb.malloc l ≠ 0)
    (hbound : eng.cookie cookie ≠ 0 →
      ∃ cd, conn_data_at eng.conn_data (eng.cookie cookie) = some cd ∧ cd.c_cookie = cookie)
    (hreset : ∀ l cd, (api.innodb_api_cursor_reset l cd).c_in_use = false
      ∧ (api.innodb_api_cursor_reset l cd).c_cookie = cd.c_cookie
      ∧ (thd_asserted cd → thd_asserted (api.innodb_api_cursor_reset l cd))) :
    (eng.m_set_option ≠ meta_set_option_t.META_CACHE →
      ∃ (eng1 : innodb_engine_t) (p : Nat) (eng2 : innodb_engine_t),
        innodb_flush_acquire cb api ( innodb_flush_default api eng).1 cookie = some (eng1, p)
          ∧ innodb_flush cb api eng cookie = some (eng2, ENGINE_ERROR_CODE.ENGINE_SUCCESS)
          ∧ (∀ err, eng1.log.count (ib_event.api_flush err)
                = eng.log.count (ib_event.api_flush err))
          ∧ (p = 0 → eng2 = eng1)
          ∧ (p ≠ 0 →
              ∃ calls : List ib_event,
                eng2.log = eng1.log ++ calls
                    ++ [ib_event.api_flush (api.innodb_api_flush (eng1.log ++ calls))]
                  ∧ ∀ e ∈ calls, ∀ err, e ≠ ib_event.api_flush err))
      ∧ (eng.m_set_option = meta_set_option_t.META_CACHE →
          ∃ eng2 : innodb_engine_t,
            innodb_flush cb api eng cookie = some (eng2, api.default_engine_flush eng.log)
              ∧ eng2.conn_data = eng.conn_data
              ∧ eng2.cookie = eng.cookie
              ∧ eng2.log = eng.log ++ [ib_event.default_flush (api.default_engine_flush eng.log)]) := by
  constructor
  · intro hroute
    obtain ⟨hDc, hDk, hDq⟩ := innodb_flush_default_frame api eng
    obtain ⟨eng1, p, hacq, hthd1, hlen1, hq1⟩ :=
      innodb_flush_acquire_total cb api ( innodb_flush_default api eng).1 cookie
        (by rw [hDc]; exact hthd) (by rw [hDc]; exact hlen) hmalloc
        (by rw [hDc, hDk]; exact hbound) hreset
    have hcount : ∀ err, eng1.log.count (ib_event.api_flush err)
        = eng.log.count (ib_event.api_flush err) :=
      fun err => log_quiet_count (log_quiet_trans hDq hq1) err
    by_cases hp : p = 0
    · refine ⟨eng1, p, eng1, hacq, ?_, hcount, fun _ => rfl, fun h => absurd hp h⟩
      simp only [innodb_flush, if_neg hroute, innodb_flush_store, hacq, hp, if_true]
    · refine ⟨eng1, p, _, hacq,
        innodb_flush_of_acquire cb api eng eng1 cookie p hroute hacq hp hthd1 hlen1,
        hcount, fun h => absurd h hp,
        fun _ => ⟨eng1.conn_data.flatMap conn_data_calls, rfl, ?_⟩⟩
      intro e he err
      obtain ⟨cd, hcd, hecd⟩ := List.mem_flatMap.mp he
      exact conn_data_calls_quiet cd (hthd1 cd hcd) e hecd err
  · intro hroute
    refine ⟨{ eng with
        log := eng.log ++ [ib_event.default_flush (api.default_engine_flush eng.log)] },
      ?_, rfl, rfl, rfl⟩
    simp only [innodb_flush, innodb_flush_default, hroute, true_or, if_true]

theorem innodb_flush_returns_success_witness :
    (∃ (eng1 : innodb_engine_t) (p : Nat) (eng2 : innodb_engine_t),
        innodb_flush_acquire cb_example api_example
            ( innodb_flush_default api_example registry_reused).1 60 = some (eng1, p)
          ∧ innodb_flush cb_example api_example registry_reused 60
              = some (eng2, ENGINE_ERROR_CODE.ENGINE_SUCCESS)
          ∧ (∀ err, eng1.log.count (ib_event.api_flush err)
                = registry_reused.log.count (ib_event.api_flush err))
          ∧ (p = 0 → eng2 = eng1)
          ∧ (p ≠ 0 →
              ∃ calls : List ib_event,
                eng2.log = eng1.log ++ calls
                    ++ [ib_event.api_flush (api_example.innodb_api_flush (eng1.log ++ calls))]
                  ∧ ∀ e ∈ calls, ∀ err, e ≠ ib_event.api_flush err))
      ∧ (∃ eng2 : innodb_engine_t,
          innodb_flush cb_example api_example
              { registry_example with m_set_option := meta_set_option_t.META_CACHE } 10
            = some (eng2, ENGINE_ERROR_CODE.ENGINE_ENOMEM)
          ∧ eng2.conn_data = registry_example.conn_data
          ∧ eng2.cookie = registry_example.cookie
          ∧ eng2.log = [ib_event.default_flush ENGINE_ERROR_CODE.ENGINE_ENOMEM]) :=
  ⟨(innodb_flush_returns_success cb_example api_example registry_reused 60
      (by decide) (by decide) (fun l => Nat.ne_of_gt (Nat.lt_of_lt_of_le (by decide) (Nat.le_add_right 9000 l.length)))
      (fun _ => ⟨_, rfl, rfl⟩) (fun _ _ => ⟨rfl, rfl, fun h => h⟩)).1 (by decide),
    (innodb_flush_returns_success cb_example api_example
      { registry_example with m_set_option := meta_set_option_t.META_CACHE } 10
      (by decide) (by decide) (fun l => Nat.ne_of_gt (Nat.lt_of_lt_of_le (by decide) (Nat.le_add_right 9000 l.length)))
      (fun _ => ⟨_, rfl, rfl⟩) (fun _ _ => ⟨rfl, rfl, fun h => h⟩)).2 rfl⟩

end InnodbMemcached
